import Mathlib

/-!
Verification of the multi-source import and reconciliation engine
(sellthrough CSV import, netsuite warehouse import, format detection,
numeric and calendar-week normalizers, fact-row uniqueness rules).

The definitions below are a shallow embedding of the Python source:
  - src/sellthrough/blueprint.py (normalizers, format detector, walmart
    row processor, CSV import route)
  - src/netsuite/blueprint.py (snowflake fetch and row processing)
  - src/models.py and src/migrations/versions/5b384bdc9357 (schema)

Modelling conventions:
  - dates are day numbers (days since 1970-01-01), converted from civil
    dates with the standard Gregorian day-count algorithm;
  - Python float and Decimal values are modelled as exact rationals
    (floating-point rounding, exponents, digit-group underscores and
    the special literals inf and nan are not modelled);
  - Python str.strip, str.lower and single-character str.replace are
    modelled per code point (ASCII case folding);
  - database ids are generated from a single monotone counter; ids are
    positive, so Python truthiness of an id coincides with presence;
  - the ORM session is a pair of database snapshots: the committed
    state and the current (pending) state; commit copies current into
    committed, rollback copies committed into current; queries read the
    current state (autoflush semantics).
-/

set_option maxRecDepth 20000

/-! ## String helpers (per-code-point models of the Python operations) -/

def stripChars (cs : List Char) : List Char :=
  ((cs.dropWhile Char.isWhitespace).reverse.dropWhile Char.isWhitespace).reverse

/-- Model of Python str.strip() with no arguments. -/
def pyStrip (s : String) : String := ⟨stripChars s.data⟩

/-- Model of Python str.lower() (ASCII case folding). -/
def pyLower (s : String) : String := ⟨s.data.map Char.toLower⟩

/-- Model of Python str.replace(c, two-character-free removal): all our uses
replace a single character by the empty string. -/
def removeChar (c : Char) (s : String) : String := ⟨s.data.filter (fun d => d ≠ c)⟩

/-- Python slicing s[:n] on code points. -/
def strTake (s : String) (n : Nat) : String := ⟨s.data.take n⟩

/-- Python slicing s[n:] on code points. -/
def strDrop (s : String) (n : Nat) : String := ⟨s.data.drop n⟩

def natOfDigits (cs : List Char) : Nat :=
  cs.foldl (fun a c => a * 10 + (c.toNat - 48)) 0

def digitsToNat? (cs : List Char) : Option Nat :=
  if cs.isEmpty then none
  else if cs.all Char.isDigit then some (natOfDigits cs) else none

/-- Model of Python int(s) on a string: optional surrounding whitespace,
optional single sign, then decimal digits (digit-group underscores are not
modelled). -/
def pyInt? (s : String) : Option Int :=
  match (pyStrip s).data with
  | '-' :: rest => (digitsToNat? rest).map (fun n => -(n : Int))
  | '+' :: rest => (digitsToNat? rest).map (fun n => (n : Int))
  | cs => (digitsToNat? cs).map (fun n => (n : Int))

/-- Unsigned decimal literal (digits, optional point, digits); at least one
digit is required.  Used to model both Python float() and Decimal() on the
already-cleaned strings the normalizers produce. -/
def unsignedLit? (cs : List Char) : Option Rat :=
  let intPart := cs.takeWhile Char.isDigit
  let rest := cs.dropWhile Char.isDigit
  match rest with
  | [] => if intPart.isEmpty then none else some ((natOfDigits intPart : Nat) : Rat)
  | '.' :: frac =>
    if frac.all Char.isDigit ∧ ¬(intPart.isEmpty ∧ frac.isEmpty) then
      some (((natOfDigits intPart : Nat) : Rat)
        + ((natOfDigits frac : Nat) : Rat) / ((10 : Rat) ^ frac.length))
    else none
  | _ => none

/-- Model of Python float(s) (and of Decimal(s)) restricted to plain decimal
literals with an optional sign. -/
def pyFloatLit? (s : String) : Option Rat :=
  match s.data with
  | '-' :: rest => (unsignedLit? rest).map (fun q => -q)
  | '+' :: rest => unsignedLit? rest
  | cs => unsignedLit? cs

/-! ## Calendar arithmetic

Day numbers count days since 1970-01-01.  daysFromCivil is the standard
Gregorian civil-to-day-count conversion; pyWeekday matches Python
date.weekday() (Monday = 0): 1970-01-01 (day 0) was a Thursday (3). -/

def daysFromCivil (y m d : Nat) : Int :=
  let y' := if m ≤ 2 then y - 1 else y
  let era := y' / 400
  let yoe := y' - era * 400
  let mp := (m + 9) % 12
  let doy := (153 * mp + 2) / 5 + d - 1
  let doe := yoe * 365 + yoe / 4 - yoe / 100 + doy
  ((era * 146097 + doe : Nat) : Int) - 719468

/-- Model of Python date.weekday() on a day number: Monday = 0. -/
def pyWeekday (t : Int) : Int := (t + 3) % 7

def isLeapYear (y : Nat) : Bool :=
  (y % 4 == 0 && y % 100 != 0) || y % 400 == 0

def daysInMonth (y m : Nat) : Nat :=
  if m = 2 then (if isLeapYear y then 29 else 28)
  else if m = 4 ∨ m = 6 ∨ m = 9 ∨ m = 11 then 30 else 31

/-! ## Numeric normalizers (src/sellthrough/blueprint.py lines 397-440) -/

/-- The local variable cleaned of parse_numeric_value: dollar signs,
commas and spaces removed, then stripped. -/
def pnv_cleaned (v : String) : String :=
  pyStrip (removeChar ' ' (removeChar ',' (removeChar '$' v)))

/-- The local variable is_negative of parse_numeric_value. -/
def pnv_isNeg (cleaned : String) : Bool :=
  match cleaned.data with | c :: _ => c == '-' | [] => false

/-- The string handed to float() after the leading minus is stripped. -/
def pnv_core (cleaned : String) : String :=
  if pnv_isNeg cleaned then ⟨cleaned.data.drop 1⟩ else cleaned

/-- Model of parse_numeric_value (lines 397-423).  The default is an
optional rational (callers pass 0 or None); on empty-like input or on any
literal float() cannot parse, the default is returned (the source catches
ValueError and TypeError and falls back to the default). -/
def parse_numeric_value (value_str : String) (default : Option Rat) : Option Rat :=
  if value_str = "" then default
  else
    let v := pyStrip value_str
    if v = "" ∨ v = "-" then default
    else
      match pyFloatLit? (pnv_core (pnv_cleaned v)) with
      | some x => some (if pnv_isNeg (pnv_cleaned v) then -x else x)
      | none => default

/-- Model of parse_percentage (lines 425-440).  Decimal(cleaned) raises
decimal.InvalidOperation on an unparseable literal; InvalidOperation is an
ArithmeticError, not a ValueError or TypeError, so the except clause in the
source does not catch it and it propagates to the row handler.  That path
is modelled as the error case. -/
def pct_cleaned (v : String) : String := pyStrip (removeChar ' ' (removeChar '%' v))

def parse_percentage (value_str : String) : Except String (Option Rat) :=
  if value_str = "" then .ok none
  else
    let v := pyStrip value_str
    if v = "" ∨ v = "-" then .ok none
    else
      match pyFloatLit? (pct_cleaned v) with
      | some q => .ok (some q)
      | none => .error (("decimal.InvalidOperation: ") ++ pct_cleaned v)

/-! ## ISO-week code normalizer (src/sellthrough/blueprint.py lines 442-461) -/

/-- Model of the body of parse_yyyyww_to_monday after the two int() calls
succeeded and datetime construction validated the year. -/
def parse_yyyyww_to_monday (year : Nat) (week : Int) : Int :=
  let jan4 := daysFromCivil year 1 4
  let days_to_monday := pyWeekday jan4 % 7
  let week1_monday := jan4 - days_to_monday
  week1_monday + 7 * (week - 1)

/-- Model of parse_yyyyww_to_monday on a raw string: int(s[:4]) and
int(s[4:]) must parse, and datetime(year, ...) requires 1 <= year <= 9999;
any failure raises ValueError, modelled as none. -/
def parse_yyyyww_str (s : String) : Option Int :=
  match pyInt? (strTake s 4), pyInt? (strDrop s 4) with
  | some y, some w =>
    if 1 ≤ y ∧ y ≤ 9999 then some (parse_yyyyww_to_monday y.toNat w) else none
  | _, _ => none

/-! ## Format detector (src/sellthrough/blueprint.py lines 532-564) -/

inductive CsvFormat
  | walmart
  | target
  | cvs
  | kehe
deriving DecidableEq, Repr

def walmart_required_headers : List String :=
  [("walmart_calendar_week"), ("walmart_item_number"), ("item_name"),
   ("pos_sales_this_year"), ("pos_quantity_this_year"),
   ("dollar_per_store_per_week_or_per_day_this_year"),
   ("units_per_store_per_week_or_per_day_this_year"),
   ("traited_store_count_this_year"), ("repl_instock_percentage_this_year")]

def target_required_headers : List String :=
  [("date"), ("dpci"), ("item description"), ("sales $"), ("sales u"),
   ("sales $ pspw"), ("sales u pspw"), ("oos %")]

def cvs_required_headers : List String :=
  [("time"), ("product"), ("total sales $ wtd"), ("total units wtd")]

def kehe_required_headers : List String :=
  [("time frame"), ("geography"), ("description"), ("dollars"), ("units"),
   ("average weekly dollars per store selling per item"),
   ("average weekly units per store selling per item")]

def normalize_headers (headers : List String) : List String :=
  headers.map (fun h => pyStrip (pyLower h))

/-- Model of detect_csv_format: lower-case and strip each header, then test
the four fixed required sets in order. -/
def detect_csv_format (headers : List String) : Option CsvFormat :=
  let headers_lower := normalize_headers headers
  if walmart_required_headers.all (fun h => headers_lower.contains h) then some .walmart
  else if target_required_headers.all (fun h => headers_lower.contains h) then some .target
  else if cvs_required_headers.all (fun h => headers_lower.contains h) then some .cvs
  else if kehe_required_headers.all (fun h => headers_lower.contains h) then some .kehe
  else none

def format_registry : List (CsvFormat × List String) :=
  [(.walmart, walmart_required_headers), (.target, target_required_headers),
   (.cvs, cvs_required_headers), (.kehe, kehe_required_headers)]

/-- Modelled from the spec: the detector returns the first known format
whose required header subset is contained in the supplied (case-normalized,
trimmed) header set, and unrecognized otherwise (spec section 4.1). -/
def detect_first_match (headers : List String) : Option CsvFormat :=
  let headers_lower := normalize_headers headers
  (format_registry.find? (fun fr => fr.2.all (fun h => headers_lower.contains h))).map (fun fr => fr.1)

/-! ## Data model (src/models.py, with the sellthrough_data columns of
migrations 93b2eb492069 and 5b384bdc9357: usd_pspw, units_pspw, instock,
channel_code added; item_id and brand_id nullable) -/

structure Item where
  id : Nat
  essor_code : Option String
  essor_name : Option String
  brand_id : Nat
deriving DecidableEq, Repr

structure Brand where
  id : Nat
  name : String
  code : Option String
deriving DecidableEq, Repr

structure ChannelItem where
  id : Nat
  channel_id : Nat
  item_id : Nat
  channel_code : String
  channel_name : String
deriving DecidableEq, Repr

structure SellthroughData where
  id : Nat
  date : Int
  brand_id : Option Nat
  item_id : Option Nat
  channel_id : Nat
  customer_id : Option Nat
  revenues : Rat
  units : Int
  stores : Int
  usd_pspw : Option Rat
  units_pspw : Option Rat
  instock : Option Rat
  oos : Option Rat
  channel_code : Option String
deriving DecidableEq, Repr

structure NetsuiteCode where
  id : Nat
  netsuite_code : String
  netsuite_name : Option String
  channel_id : Option Nat
  customer_id : Option Nat
deriving DecidableEq, Repr

structure NetsuiteData where
  id : Nat
  date : Int
  brand_id : Nat
  item_id : Nat
  channel_id : Option Nat
  customer_id : Option Nat
  internal_id : Option String
  revenues : Rat
  units : Int
  retailer_code : Option String
deriving DecidableEq, Repr

/-- The import_errors table (field channel_tag models the import_channel
column; error_data is the serialized raw row). -/
structure ImportErrorRec where
  channel_tag : String
  error_data : String
  error_message : String
  row_number : Option Nat
deriving DecidableEq, Repr

/-- One snapshot of the database. -/
structure DB where
  channels : List Nat
  brands : List Brand
  items : List Item
  channel_items : List ChannelItem
  facts : List SellthroughData
  netsuite_codes : List NetsuiteCode
  netsuite_data : List NetsuiteData
  error_records : List ImportErrorRec
  next_id : Nat
deriving DecidableEq, Repr

/-- The ORM session: the committed database and the current view holding
all pending (flushed but uncommitted) changes. -/
structure SessState where
  committed : DB
  current : DB
deriving DecidableEq, Repr

def commitSess (st : SessState) : SessState := { st with committed := st.current }

def rollbackSess (st : SessState) : SessState := { st with current := st.committed }

structure Results where
  processed : Nat
  created : Nat
  updated : Nat
  skipped : Nat
  errors : List String
deriving DecidableEq, Repr

def Results.init : Results := ⟨0, 0, 0, 0, []⟩

inductive RowOutcome
  | created
  | updated
deriving DecidableEq, Repr

/-- In-place mutation of the first object a query returned: the ORM mutates
that one object, which is the first list element satisfying the query
predicate. -/
def replaceFirst (p : α → Bool) (f : α → α) : List α → List α
  | [] => []
  | x :: xs => if p x then f x :: xs else x :: replaceFirst p f xs

/-! ## Sellthrough walmart row processing
(src/sellthrough/blueprint.py lines 566-744 and 1031-1158) -/

/-- Truthiness of an optional string in Python: None and the empty string
are falsy. -/
def strTruthy : Option String → Bool
  | none => false
  | some s => s ≠ ""

/-- Python a or b on optional strings, with a string fallback. -/
def pyStrOr (a : Option String) (b : String) : String :=
  match a with
  | some s => if s = "" then b else s
  | none => b

/-- Query predicate: ChannelItem by (channel_id, channel_code). -/
def ciByCode (channel_id : Nat) (channel_code : String) (ci : ChannelItem) : Bool :=
  ci.channel_id == channel_id && ci.channel_code == channel_code

/-- Query predicate: ChannelItem by (channel_id, item_id). -/
def ciByItem (channel_id item_id : Nat) (ci : ChannelItem) : Bool :=
  ci.channel_id == channel_id && ci.item_id == item_id

/-- Model of find_or_create_channel_item (lines 566-618).  Returns the
possibly-updated database, the resolved item id (None when unresolved) and
whether a ChannelItem object was returned.  Despite its name the function
never creates an Item: it looks the alias up by channel code, then falls
back to an internal essor_code match, and otherwise resolves to nothing so
the caller imports the row without an item link. -/
def find_or_create_channel_item (db : DB) (channel_id : Nat) (channel_code : String)
    (channel_name : Option String) : DB × Option Nat × Bool :=
  match db.channel_items.find? (ciByCode channel_id channel_code) with
  | some ci => (db, some ci.item_id, true)
  | none =>
    match db.items.find? (fun it => it.essor_code == some channel_code) with
    | some item =>
      match db.channel_items.find? (ciByItem channel_id item.id) with
      | some _ =>
        -- update the existing alias object in place: the code is set to the
        -- new channel_code, the name to a truthy new channel_name
        let cis := replaceFirst (ciByItem channel_id item.id)
          (fun ci => { ci with
            channel_code := channel_code,
            channel_name := if strTruthy channel_name
              then (channel_name.getD ci.channel_name) else ci.channel_name })
          db.channel_items
        ({ db with channel_items := cis }, some item.id, true)
      | none =>
        let new_ci : ChannelItem :=
          { id := db.next_id, channel_id := channel_id, item_id := item.id,
            channel_code := channel_code,
            channel_name := pyStrOr channel_name (pyStrOr item.essor_name channel_code) }
        ({ db with channel_items := db.channel_items ++ [new_ci],
                   next_id := db.next_id + 1 }, some item.id, true)
    | none => (db, none, false)

/-- Model of lines 658-660: if a ChannelItem object was returned and the
row supplies a nonempty item name differing from the stored one, the name
is overwritten.  In every branch of find_or_create_channel_item the
returned object is the first alias matching (channel_id, channel_code) in
the post state, so the mutation is a replaceFirst on that key; writing an
equal name back is a no-op, so the differs-check is dropped. -/
def update_channel_item_name (db : DB) (found : Bool) (channel_id : Nat)
    (channel_code : String) (channel_name : String) : DB :=
  if found && (channel_name != "") then
    let cis := replaceFirst (ciByCode channel_id channel_code)
      (fun ci => { ci with channel_name := channel_name }) db.channel_items
    { db with channel_items := cis }
  else db

/-- Model of lines 662-668: derive brand_id from the resolved item. -/
def walmart_brand_of (db : DB) (item_id : Option Nat) : Except String (Option Nat) :=
  match item_id with
  | none => .ok none
  | some iid =>
    match db.items.find? (fun it => it.id == iid) with
    | some it => .ok (some it.brand_id)
    | none => .error (("Item with id ") ++ toString iid ++ (" not found"))

/-- Query predicate for the item-absent natural key (lines 684-691). -/
def factUnlinkedKey (week_date : Int) (channel_id : Nat) (channel_code : String)
    (f : SellthroughData) : Bool :=
  f.date == week_date && f.channel_id == channel_id && f.item_id == none
    && f.customer_id == none && f.channel_code == some channel_code

/-- Query predicate for the item-present natural key (lines 693-698). -/
def factLinkedKey (week_date : Int) (channel_id item_id : Nat)
    (f : SellthroughData) : Bool :=
  f.date == week_date && f.channel_id == channel_id && f.item_id == some item_id
    && f.customer_id == none

/-- The applicable natural key variant: item-present or item-absent. -/
def walmartKeyFor (item_id : Option Nat) (week_date : Int) (channel_id : Nat)
    (channel_code : String) : SellthroughData → Bool :=
  match item_id with
  | none => factUnlinkedKey week_date channel_id channel_code
  | some iid => factLinkedKey week_date channel_id iid

/-- Model of the find-or-create-or-update block of process_walmart_row
(lines 682-727): look an existing fact up by the applicable natural key
variant, overwrite its measures and foreign keys if found, insert a new
fact row otherwise. -/
def walmart_upsert (db : DB) (week_date : Int) (brand_id : Option Nat)
    (item_id : Option Nat) (channel_id : Nat) (channel_code : String)
    (revenues : Rat) (units stores : Int)
    (usd_pspw units_pspw instock : Option Rat) : DB × RowOutcome :=
  let key := walmartKeyFor item_id week_date channel_id channel_code
  match db.facts.find? key with
  | some _ =>
    let facts := replaceFirst key
      (fun f => { f with revenues := revenues, units := units, stores := stores,
                         usd_pspw := usd_pspw, units_pspw := units_pspw,
                         instock := instock, channel_code := some channel_code,
                         brand_id := brand_id }) db.facts
    ({ db with facts := facts }, .updated)
  | none =>
    let f : SellthroughData :=
      { id := db.next_id, date := week_date, brand_id := brand_id, item_id := item_id,
        channel_id := channel_id, customer_id := none, revenues := revenues,
        units := units, stores := stores, usd_pspw := usd_pspw,
        units_pspw := units_pspw, instock := instock, oos := none,
        channel_code := some channel_code }
    ({ db with facts := db.facts ++ [f], next_id := db.next_id + 1 }, .created)

/-- A raw walmart CSV row: csv.DictReader yields strings for each of the
nine detected columns (a missing value is the empty string). -/
structure WRow where
  walmart_calendar_week : String
  walmart_item_number : String
  item_name : String
  pos_sales_this_year : String
  pos_quantity_this_year : String
  dollar_per_store_per_week_or_per_day_this_year : String
  units_per_store_per_week_or_per_day_this_year : String
  traited_store_count_this_year : String
  repl_instock_percentage_this_year : String
deriving DecidableEq, Repr

/-- Truncation toward zero, as Python int() on a numeric value. -/
def truncRat (q : Rat) : Int := q.num.tdiv q.den

/-- The database-independent field parsing of process_walmart_row, grouped
together (source lines 636-640, 649-653, 670-680).  When several fields of
one row are faulty the source reports whichever failure its own statement
order reaches first and this model whichever this order reaches first; in
both cases the row is skipped with a single recorded error. -/
structure WParsed where
  week_date : Int
  channel_code : String
  channel_name : String
  revenues : Rat
  units : Int
  stores : Int
  usd_pspw : Option Rat
  units_pspw : Option Rat
  instock : Option Rat
deriving DecidableEq, Repr

def parse_walmart_row (row : WRow) : Except String WParsed :=
  let week_str := pyStrip row.walmart_calendar_week
  if week_str = "" then .error ("Missing walmart_calendar_week field")
  else
    match parse_yyyyww_str week_str with
    | none => .error (("Invalid YYYYWW format: ") ++ week_str)
    | some week_date =>
      let channel_code := pyStrip row.walmart_item_number
      if channel_code = "" then .error ("Missing walmart_item_number field")
      else
        match parse_percentage row.repl_instock_percentage_this_year with
        | .error e => .error e
        | .ok instock =>
          .ok { week_date := week_date,
                channel_code := channel_code,
                channel_name := pyStrip row.item_name,
                revenues := (parse_numeric_value row.pos_sales_this_year (some 0)).getD 0,
                units := truncRat ((parse_numeric_value row.pos_quantity_this_year (some 0)).getD 0),
                stores := truncRat ((parse_numeric_value row.traited_store_count_this_year (some 0)).getD 0),
                usd_pspw := parse_numeric_value row.dollar_per_store_per_week_or_per_day_this_year none,
                units_pspw := parse_numeric_value row.units_per_store_per_week_or_per_day_this_year none,
                instock := instock }

/-- The try body of process_walmart_row (lines 635-729) on the current
session view: parse, check the fixed channel (id 2), resolve the item via
the channel alias, derive the brand from the item, then upsert. -/
def walmart_try_body (row : WRow) (db : DB) : Except String (DB × RowOutcome) :=
  match parse_walmart_row row with
  | .error e => .error e
  | .ok p =>
    if (db.channels.contains 2) = false then .error ("Channel with id 2 not found")
    else
      match find_or_create_channel_item db 2 p.channel_code (some p.channel_name) with
      | (db1, item_id, found_ci) =>
        let db2 := update_channel_item_name db1 found_ci 2 p.channel_code p.channel_name
        match walmart_brand_of db2 item_id with
        | .error e => .error e
        | .ok brand_id =>
          .ok (walmart_upsert db2 p.week_date brand_id item_id 2 p.channel_code
                p.revenues p.units p.stores p.usd_pspw p.units_pspw p.instock)

/-- Serialized raw row stored in the error record (json.dumps of the row
dict, modelled as a field rendition). -/
def wrowData (row : WRow) : String :=
  row.walmart_calendar_week ++ ("|") ++ row.walmart_item_number ++ ("|")
    ++ row.item_name ++ ("|") ++ row.pos_sales_this_year ++ ("|")
    ++ row.pos_quantity_this_year ++ ("|")
    ++ row.dollar_per_store_per_week_or_per_day_this_year ++ ("|")
    ++ row.units_per_store_per_week_or_per_day_this_year ++ ("|")
    ++ row.traited_store_count_this_year ++ ("|")
    ++ row.repl_instock_percentage_this_year

/-- Model of _save_import_error (lines 20-41): add an ImportError row to
the session (no commit here; the batch commit is meant to persist it). -/
def save_import_error (db : DB) (channel_tag : String) (row_data : String)
    (error_message : String) (row_number : Option Nat) : DB :=
  { db with error_records := db.error_records ++
      [{ channel_tag := channel_tag, error_data := row_data,
         error_message := error_message, row_number := row_number }] }

/-- Model of process_walmart_row (lines 633-744).  On success the counters
gain one processed and one created-or-updated.  On any exception the
handler appends the message, adds an ImportError to the session, counts the
row as skipped, and then calls db.session.rollback, which resets the
current view to the committed state — discarding every pending change of
the run so far, the just-added ImportError included. -/
def process_walmart_row (row : WRow) (row_num : Nat) (st : SessState)
    (res : Results) (dry_run : Bool) : SessState × Results × Bool :=
  match walmart_try_body row st.current with
  | .ok (db1, oc) =>
    let res := match oc with
      | .created => { res with created := res.created + 1 }
      | .updated => { res with updated := res.updated + 1 }
    ({ st with current := db1 }, { res with processed := res.processed + 1 }, true)
  | .error msg =>
    let error_msg := ("Row ") ++ toString row_num ++ (": ") ++ msg
    let res := { res with errors := res.errors ++ [error_msg],
                          skipped := res.skipped + 1 }
    let cur := save_import_error st.current ("csv") (wrowData row) error_msg (some row_num)
    (rollbackSess { st with current := cur }, res, false)

/-- The per-row loop of the import route (lines 1099-1116): row numbers
start at 2 because the header is row 1.  The walmart branch of the string
dispatch is modelled; dry_run is threaded but unused by the processor, as
in the source. -/
def run_walmart_rows (rows : List WRow) (row_num : Nat) (st : SessState)
    (res : Results) (dry_run : Bool) : SessState × Results :=
  match rows with
  | [] => (st, res)
  | r :: rest =>
    let s := process_walmart_row r row_num st res dry_run
    run_walmart_rows rest (row_num + 1) s.1 s.2.1 dry_run

inductive ImportOutcome
  | rejected (db : DB)
  | completed (db : DB) (results : Results)
  | otherFormat (fmt : CsvFormat) (db : DB)
deriving DecidableEq, Repr

/-- Model of the import_data route (lines 1031-1158) for an uploaded CSV
with the given header row and data rows.  An unrecognized header set
rejects the upload before any row is read, with no writes and no error
records.  The walmart format runs every row through process_walmart_row
(the first 10 rows only under dry-run), then issues one final commit
(dry-run rolls back instead).  The target, cvs and kehe processors are not
modelled here. -/
def sellthrough_import (db : DB) (headers : List String) (rows : List WRow)
    (dry_run : Bool) : ImportOutcome :=
  match detect_csv_format headers with
  | none => .rejected db
  | some .walmart =>
    let rows_to_process := if dry_run then rows.take 10 else rows
    let s := run_walmart_rows rows_to_process 2 ⟨db, db⟩ Results.init dry_run
    if dry_run then .completed (rollbackSess s.1).current s.2
    else .completed (commitSess s.1).current s.2
  | some fmt => .otherFormat fmt db

def outcomeDb : ImportOutcome → DB
  | .rejected db => db
  | .completed db _ => db
  | .otherFormat _ db => db

def outcomeResults : ImportOutcome → Option Results
  | .completed _ res => some res
  | _ => none

/-! ## Netsuite warehouse import (src/netsuite/blueprint.py lines 501-922)

The snowflake query result is a list of seven-field tuples.  The date
column can arrive as a date object, a datetime, a string, or NULL; the
other fields are numbers or strings, possibly NULL. -/

inductive NSDateVal
  | null
  | str (s : String)
  | dt (days : Int)
  | dateObj (days : Int)
deriving DecidableEq, Repr

structure NSRow where
  revenues : Option Rat
  units : Option Rat
  brand : Option String
  dateVal : NSDateVal
  essor_code : Option String
  retailer_code : Option String
  retailer : Option String
deriving DecidableEq, Repr

/-- Model of strptime with format %Y-%m-%d: dash-separated decimal fields
(the year up to four digits, month and day up to two), validated as a
calendar date. -/
def parseYmd? (s : String) : Option Int :=
  match s.data.splitOn '-' with
  | [ys, ms, ds] =>
    match digitsToNat? ys, digitsToNat? ms, digitsToNat? ds with
    | some y, some m, some d =>
      if 1 ≤ y ∧ y ≤ 9999 ∧ ys.length ≤ 4 ∧ 1 ≤ m ∧ m ≤ 12 ∧ ms.length ≤ 2
          ∧ 1 ≤ d ∧ d ≤ daysInMonth y m ∧ ds.length ≤ 2 then
        some (daysFromCivil y m d)
      else none
    | _, _, _ => none
  | _ => none

/-- Python str.split()[0]: the first maximal whitespace-free run, if any. -/
def splitWsFirst (s : String) : Option String :=
  let cs := (s.data.dropWhile Char.isWhitespace).takeWhile (fun c => ¬ c.isWhitespace)
  if cs.isEmpty then none else some ⟨cs⟩

/-- Model of the date handling of _execute_netsuite_import
(lines 614-668): a missing or empty date is an inline row error; a string
is parsed as %Y-%m-%d, then its first whitespace-separated token is; a
datetime is truncated to its date; a date object passes through.  The
third strptime attempt of the source (%Y-%m-%d %H:%M:%S on the full
string) can only succeed when the second already has, so it is subsumed. -/
def parse_ns_date : NSDateVal → Except String Int
  | .null => .error ("Missing date field")
  | .str s =>
    if s = "" then .error ("Missing date field")
    else
      let t := pyStrip s
      match parseYmd? t with
      | some d => .ok d
      | none =>
        match (splitWsFirst t).bind parseYmd? with
        | some d => .ok d
        | none => .error (("Invalid date format ") ++ s)
  | .dt d => .ok d
  | .dateObj d => .ok d

/-- Model of lines 675-698: ensure a NetsuiteCode row exists for a truthy
retailer code; a mapping created here carries no channel and no customer
and counts one creation.  The channel and customer ids of the mapping
drive the fact lookup (the ORM relationship resolves channel_id). -/
def ensure_netsuite_code (db : DB) (retailer_code retailer : Option String) :
    DB × Nat × Option Nat × Option Nat :=
  if strTruthy retailer_code then
    match db.netsuite_codes.find?
        (fun m => m.netsuite_code == retailer_code.getD "") with
    | some m => (db, 0, m.channel_id, m.customer_id)
    | none =>
      let m : NetsuiteCode :=
        { id := db.next_id, netsuite_code := retailer_code.getD "",
          netsuite_name := retailer, channel_id := none, customer_id := none }
      ({ db with netsuite_codes := db.netsuite_codes ++ [m],
                 next_id := db.next_id + 1 }, 1, none, none)
  else (db, 0, none, none)

/-- Model of lines 713-732: find the brand by name, then by code, else
create it with the brand token as both name and code. -/
def find_or_create_brand (db : DB) (brand_name : String) : DB × Nat × Brand :=
  match db.brands.find? (fun b => b.name == brand_name) with
  | some b => (db, 0, b)
  | none =>
    match db.brands.find? (fun b => b.code == some brand_name) with
    | some b => (db, 0, b)
    | none =>
      let b : Brand := { id := db.next_id, name := brand_name, code := some brand_name }
      ({ db with brands := db.brands ++ [b], next_id := db.next_id + 1 }, 1, b)

/-- Model of lines 744-757: find the item by essor code, else create it
under the resolved brand with no essor name. -/
def ns_find_or_create_item (db : DB) (essor_code : String) (brand : Brand) :
    DB × Nat × Item :=
  match db.items.find? (fun it => it.essor_code == some essor_code) with
  | some it => (db, 0, it)
  | none =>
    let it : Item := { id := db.next_id, essor_code := some essor_code,
                       essor_name := none, brand_id := brand.id }
    ({ db with items := db.items ++ [it], next_id := db.next_id + 1 }, 1, it)

/-- Query predicate for the netsuite fact natural key.  The four query
branches of lines 771-802 differ only in whether channel_id and
customer_id are compared to a value or to NULL, which is one Option
comparison here. -/
def nsFactKey (date : Int) (channel_id customer_id : Option Nat) (item_id : Nat)
    (f : NetsuiteData) : Bool :=
  f.date == date && f.channel_id == channel_id && f.item_id == item_id
    && f.customer_id == customer_id

/-- Model of lines 804-834: update the existing netsuite fact in place or
insert a new one. -/
def netsuite_upsert (db : DB) (date : Int) (brand_id item_id : Nat)
    (channel_id customer_id : Option Nat) (revenues : Rat) (units : Int)
    (retailer_code : Option String) : DB × RowOutcome :=
  match db.netsuite_data.find? (nsFactKey date channel_id customer_id item_id) with
  | some _ =>
    let nds := replaceFirst (nsFactKey date channel_id customer_id item_id)
      (fun f => { f with revenues := revenues, units := units, brand_id := brand_id,
                         retailer_code := retailer_code, channel_id := channel_id,
                         customer_id := customer_id }) db.netsuite_data
    ({ db with netsuite_data := nds }, .updated)
  | none =>
    let f : NetsuiteData :=
      { id := db.next_id, date := date, brand_id := brand_id, item_id := item_id,
        channel_id := channel_id, customer_id := customer_id, internal_id := none,
        revenues := revenues, units := units, retailer_code := retailer_code }
    ({ db with netsuite_data := db.netsuite_data ++ [f],
               next_id := db.next_id + 1 }, .created)

/-- One netsuite row (lines 612-834).  The inline error paths (missing or
invalid date, missing brand, missing essor code) return the partial
database — entities already ensured stay pending, there is no rollback —
together with the entity-creation count accumulated so far.  On success
the result carries the new database, the entity-creation count, and
whether the fact row was created or updated. -/
def netsuite_row_step (row : NSRow) (db : DB) :
    Except (String × DB × Nat) (DB × Nat × RowOutcome) :=
  match parse_ns_date row.dateVal with
  | .error e => .error (e, db, 0)
  | .ok date =>
    match ensure_netsuite_code db row.retailer_code row.retailer with
    | (db, ec1, channel_id, customer_id) =>
      if ¬ strTruthy row.brand then .error (("Missing brand field"), db, ec1)
      else
        match find_or_create_brand db (row.brand.getD "") with
        | (db, ec2, brand) =>
          if ¬ strTruthy row.essor_code then
            .error (("Missing essor_code field"), db, ec1 + ec2)
          else
            match ns_find_or_create_item db (row.essor_code.getD "") brand with
            | (db, ec3, item) =>
              let revenues := row.revenues.getD 0
              let units := truncRat (row.units.getD 0)
              let brand_id := item.brand_id
              match netsuite_upsert db date brand_id item.id channel_id customer_id
                      revenues units row.retailer_code with
              | (db, oc) => .ok (db, ec1 + ec2 + ec3, oc)

/-- Serialized raw netsuite row stored in the error record. -/
def nsRowData (row : NSRow) : String :=
  (row.brand.getD "") ++ ("|") ++ (row.essor_code.getD "") ++ ("|")
    ++ (row.retailer_code.getD "") ++ ("|") ++ (row.retailer.getD "")

/-- Model of the per-row handling inside the batch loop of
_execute_netsuite_import.  Inline errors append the message, store an
ImportError in the session (flushed, committed with the batch) and count
the row as skipped; there is no per-row rollback on this path.  The
generic exception handler of lines 836-872 is not exercised by the
modelled field types. -/
def process_netsuite_row (row : NSRow) (row_num : Nat) (st : SessState)
    (res : Results) : SessState × Results :=
  match netsuite_row_step row st.current with
  | .ok (db1, ec, oc) =>
    let res := match oc with
      | .created => { res with created := res.created + ec + 1 }
      | .updated => { res with created := res.created + ec, updated := res.updated + 1 }
    ({ st with current := db1 }, { res with processed := res.processed + 1 })
  | .error (msg, dbp, ec) =>
    let error_msg := ("Row ") ++ toString row_num ++ (": ") ++ msg
    let cur := save_import_error dbp ("snowflake") (nsRowData row) error_msg (some row_num)
    ({ st with current := cur },
     { res with created := res.created + ec,
                errors := res.errors ++ [error_msg],
                skipped := res.skipped + 1 })

/-- The batch loop (lines 594-886): rows are processed in order; after
each batch of 100 rows the session is committed (never under dry-run).
The trailing partial batch is committed by the loop of the source after
its last row; committing twice at a boundary is a no-op. -/
def run_netsuite_rows (rows : List NSRow) (row_num left_in_batch : Nat)
    (st : SessState) (res : Results) (dry_run : Bool) : SessState × Results :=
  match rows with
  | [] => (if dry_run then st else commitSess st, res)
  | r :: rest =>
    let s := process_netsuite_row r row_num st res
    let st := if left_in_batch = 1 ∧ ¬ dry_run then commitSess s.1 else s.1
    run_netsuite_rows rest (row_num + 1) (if left_in_batch = 1 then 100 else left_in_batch - 1)
      st s.2 dry_run

/-! ## Snowflake fetch (lines 528-571 and the error propagation of the
route at lines 908-922 and 965-971)

The connection and the query execution happen before the row loop and
before the surrounding try of line 592; any failure there propagates out
of _execute_netsuite_import, so the whole run fails with no row processed
and no summary.  The fetch consults an oracle mapping the attempt number
to an outcome; the source performs a single attempt. -/

inductive FetchOutcome
  | ok (rows : List NSRow)
  | httpTransient (status : Nat)
  | systemBusy
deriving DecidableEq, Repr

/-- Model of get_snowflake_connection plus cursor.execute plus fetchall:
one attempt, no retry loop. -/
def snowflake_fetch (oracle : Nat → FetchOutcome) : Except String (List NSRow) :=
  match oracle 0 with
  | .ok rows => .ok rows
  | .httpTransient status => .error (("snowflake transport error ") ++ toString status)
  | .systemBusy => .error ("snowflake system busy")

/-- Model of _execute_netsuite_import (lines 508-922) over a fetch oracle:
fetch once, then run the batch pipeline over the fetched rows (the first
10 only under dry-run, which also never commits). -/
def execute_netsuite_import (oracle : Nat → FetchOutcome) (db : DB)
    (dry_run : Bool) : Except String (DB × Results) :=
  match snowflake_fetch oracle with
  | .error e => .error e
  | .ok rows =>
    let rows_to_process := if dry_run then rows.take 10 else rows
    let s := run_netsuite_rows rows_to_process 1 100 ⟨db, db⟩ Results.init dry_run
    .ok ((if dry_run then s.1.committed else s.1.current), s.2)

/-- Modelled from the spec: section 4.6 describes a warehouse fetcher that
retries transient failures with exponential backoff (base delay doubling
per attempt) up to a capped attempt count, failing the run only when the
retries are exhausted.  The delay schedule is real time and not observable
here; the retry structure is. -/
def spec_retry_fetch (oracle : Nat → FetchOutcome) :
    Nat → Nat → Except String (List NSRow)
  | 0, _ => .error ("retries exhausted")
  | fuel + 1, attempt =>
    match oracle attempt with
    | .ok rows => .ok rows
    | _ => spec_retry_fetch oracle fuel (attempt + 1)

/-- Modelled from the spec: the backoff delay before retry attempt k of
the schedule described in section 4.6 (base delay doubling per attempt). -/
def spec_backoff_delay (base attempt : Nat) : Nat := base * 2 ^ attempt

/-! ## Fact-row uniqueness constraints
(src/migrations/versions/5b384bdc9357, upgrade) -/

/-- A partial unique index: rows satisfying cond must have pairwise
distinct keys.  Option-typed key components compare NULL as a marker value
(the single-NULL natural keys the import engine writes are the intended
domain of the two sellthrough indexes). -/
structure PartialUniqueIndex (α : Type) (κ : Type) where
  cond : α → Bool
  key : α → κ

def pairAdmissible (idx : PartialUniqueIndex α κ) (f g : α) : Prop :=
  idx.cond f = true → idx.cond g = true → idx.key f ≠ idx.key g

/-- The rows of a table satisfy a partial unique index. -/
def indexHolds (idx : PartialUniqueIndex α κ) (rows : List α) : Prop :=
  rows.Pairwise (pairAdmissible idx)

/-- Index uq_sellthrough_with_item of the migration: unique on
(date, channel_id, item_id, customer_id) where item_id IS NOT NULL. -/
def uq_sellthrough_with_item :
    PartialUniqueIndex SellthroughData (Int × Nat × Option Nat × Option Nat) :=
  { cond := fun f => f.item_id.isSome,
    key := fun f => (f.date, f.channel_id, f.item_id, f.customer_id) }

/-- Index uq_sellthrough_without_item of the migration: unique on
(date, channel_id, channel_code, customer_id) where item_id IS NULL. -/
def uq_sellthrough_without_item :
    PartialUniqueIndex SellthroughData (Int × Nat × Option String × Option Nat) :=
  { cond := fun f => f.item_id.isNone,
    key := fun f => (f.date, f.channel_id, f.channel_code, f.customer_id) }

/-! ## Spec-side item resolution order, for comparison with the source -/

/-- Modelled from the spec: section 4.3 resolves an item by internal code
match first, then internal display-name match, then channel-alias lookup
by channel-specific code, then channel-alias lookup by channel-specific
name scoped to the resolved channel. -/
def spec_resolve_item (db : DB) (channel_id : Nat) (channel_code : String)
    (channel_name : String) : Option Nat :=
  match db.items.find? (fun it => it.essor_code == some channel_code) with
  | some it => some it.id
  | none =>
    match db.items.find? (fun it => it.essor_name == some channel_name) with
    | some it => some it.id
    | none =>
      match db.channel_items.find? (ciByCode channel_id channel_code) with
      | some ci => some ci.item_id
      | none =>
        match db.channel_items.find?
            (fun ci => ci.channel_id == channel_id && ci.channel_name == channel_name) with
        | some ci => some ci.item_id
        | none => none

/-- The resolution order the source actually implements, stated standalone:
channel-alias lookup by channel-specific code first, then an internal
essor-code match on the raw channel code; nothing else. -/
def code_resolution_order (db : DB) (channel_id : Nat) (channel_code : String) :
    Option Nat :=
  match db.channel_items.find? (ciByCode channel_id channel_code) with
  | some ci => some ci.item_id
  | none =>
    match db.items.find? (fun it => it.essor_code == some channel_code) with
    | some it => some it.id
    | none => none

/-! ## Concrete example data used by witnesses and counterexamples -/

def emptyDB : DB :=
  { channels := [], brands := [], items := [], channel_items := [], facts := [],
    netsuite_codes := [], netsuite_data := [], error_records := [], next_id := 1 }

/-- A database holding only the walmart channel (id 2). -/
def wmDB : DB := { emptyDB with channels := [2] }

/-- A fully valid walmart row: week 202401, item number A1. -/
def wrowGood : WRow :=
  { walmart_calendar_week := "202401", walmart_item_number := "A1",
    item_name := "Widget", pos_sales_this_year := "$1,000.50",
    pos_quantity_this_year := "10",
    dollar_per_store_per_week_or_per_day_this_year := "",
    units_per_store_per_week_or_per_day_this_year := "",
    traited_store_count_this_year := "5",
    repl_instock_percentage_this_year := "99.5%" }

/-- A walmart row with an invalid calendar-week date. -/
def wrowBadDate : WRow :=
  { wrowGood with walmart_calendar_week := "banana", walmart_item_number := "A2" }

/-- The walmart row used in the double-import scenarios (item number X1). -/
def wrowX : WRow := { wrowGood with walmart_item_number := "X1" }

/-- A database holding the walmart channel and an item whose essor code
matches the X1 row, so resolution succeeds via the internal-code fallback. -/
def wmDBItem : DB :=
  { wmDB with items := [{ id := 1, essor_code := some ("X1"),
                          essor_name := some ("Widget"), brand_id := 7 }],
              next_id := 2 }

/-- The resolver state that separates the spec resolution order from the
implemented one: an item whose internal code equals the channel code X,
and a channel alias mapping code X to a different item. -/
def resolveOrderDB : DB :=
  { emptyDB with
      channels := [2],
      items := [{ id := 1, essor_code := some ("X"), essor_name := some ("N"), brand_id := 7 },
                { id := 2, essor_code := some ("Y"), essor_name := some ("M"), brand_id := 7 }],
      channel_items := [{ id := 3, channel_id := 2, item_id := 2,
                          channel_code := ("X"), channel_name := ("M") }],
      next_id := 4 }

/-- A valid netsuite row with a date object, resolving brand, item and
retailer mapping from scratch. -/
def nsRow1 : NSRow :=
  { revenues := some 100, units := some 5, brand := some ("BrandA"),
    dateVal := .dateObj 19723, essor_code := some ("E1"),
    retailer_code := some ("WALMA"), retailer := some ("Walmart Stores") }

/-- A fetch oracle that fails transiently on the first attempt and
succeeds on every later one. -/
def retryOracle : Nat → FetchOutcome :=
  fun n => if n = 0 then .httpTransient 429 else .ok []

/-- The two-row walmart import whose second row has an invalid date. -/
def c1run : ImportOutcome :=
  sellthrough_import wmDB walmart_required_headers [wrowGood, wrowBadDate] false

/-- The summary the two-row import reports. -/
def c10res : Results :=
  { processed := 1, created := 1, updated := 0, skipped := 1,
    errors := [("Row 3: Invalid YYYYWW format: banana")] }

/-- First import of the X1 row: the item is unresolvable, so the fact row
is persisted unlinked. -/
def c2run1 : ImportOutcome :=
  sellthrough_import wmDB walmart_required_headers [wrowX] false

def c2db1 : DB := outcomeDb c2run1

/-- The same database after an item with essor code X1 appears (for
example through a netsuite import), making the item link resolvable. -/
def c2db2 : DB :=
  { c2db1 with items := [{ id := 5, essor_code := some ("X1"),
                           essor_name := some ("Widget"), brand_id := 7 }],
               next_id := 6 }

/-- Second import of the identical X1 row on the enriched database. -/
def c2run2 : ImportOutcome :=
  sellthrough_import c2db2 walmart_required_headers [wrowX] false

/-- First pass of the X1 row over the database already holding the item. -/
def wmPass1 : SessState × Results × Bool :=
  process_walmart_row wrowX 2 ⟨wmDBItem, wmDBItem⟩ Results.init false

/-- First pass of the netsuite example row over the empty database. -/
def nsPass1 : SessState × Results :=
  process_netsuite_row nsRow1 1 ⟨emptyDB, emptyDB⟩ Results.init

/-- Executable checker for a partial unique index over a list of rows:
no later row both satisfies the condition together with an earlier row
and repeats its key. -/
def indexHoldsB (idx : PartialUniqueIndex α κ) [DecidableEq κ] : List α → Bool
  | [] => true
  | a :: l =>
    (l.all (fun b => !(idx.cond a && idx.cond b && decide (idx.key a = idx.key b))))
      && indexHoldsB idx l

/-- A linked fact row (item_id present) for exercising the two partial
unique indexes. -/
def factLinkedEx : SellthroughData :=
  { id := 1, date := 0, brand_id := none, item_id := some 5, channel_id := 2,
    customer_id := none, revenues := 0, units := 0, stores := 0,
    usd_pspw := none, units_pspw := none, instock := none, oos := none,
    channel_code := some ("X1") }

/-- The unlinked twin of the same fact row (item_id absent). -/
def factUnlinkedEx : SellthroughData := { factLinkedEx with id := 2, item_id := none }

/-! ## Generic list lemmas for first-match queries and in-place updates -/

theorem indexHolds_of_indexHoldsB (idx : PartialUniqueIndex α κ) [DecidableEq κ] :
    ∀ rows : List α, indexHoldsB idx rows = true → indexHolds idx rows
  | [], _ => List.Pairwise.nil
  | a :: l, h => by
    rw [indexHoldsB, Bool.and_eq_true] at h
    refine List.Pairwise.cons ?_ (indexHolds_of_indexHoldsB idx l h.2)
    intro b hb
    have hall := List.all_eq_true.mp h.1 b hb
    show idx.cond a = true → idx.cond b = true → idx.key a ≠ idx.key b
    intro hca hcb hkey
    rw [hca, hcb, hkey] at hall
    simp at hall

theorem pairAdmissible_of_cond_false (idx : PartialUniqueIndex α κ) (f g : α)
    (h : idx.cond f = false ∨ idx.cond g = false) : pairAdmissible idx f g := by
  unfold pairAdmissible
  intro h1 h2
  rcases h with h | h <;> simp_all

theorem length_replaceFirst (p : α → Bool) (f : α → α) (l : List α) :
    (replaceFirst p f l).length = l.length := by
  induction l with
  | nil => rfl
  | cons x xs ih =>
    simp only [replaceFirst]
    split <;> simp [ih]

theorem find?_replaceFirst_self (p : α → Bool) (f : α → α) (l : List α) (a : α)
    (hfind : l.find? p = some a) (hpa : p (f a) = true) :
    (replaceFirst p f l).find? p = some (f a) := by
  induction l with
  | nil => simp at hfind
  | cons x xs ih =>
    by_cases hx : p x = true
    · rw [List.find?_cons_of_pos _ hx] at hfind
      injection hfind with hfind
      subst hfind
      simp [replaceFirst, hx, List.find?_cons_of_pos, hpa]
    · have hx' : p x = false := by simpa using hx
      rw [List.find?_cons_of_neg _ (by simp [hx'])] at hfind
      simp [replaceFirst, hx', List.find?_cons_of_neg, ih hfind]

theorem find?_replaceFirst_cross (p q : α → Bool) (f : α → α) (l : List α) (a : α)
    (hnone : ∀ x ∈ l, q x = false) (hfind : l.find? p = some a)
    (hqa : q (f a) = true) :
    (replaceFirst p f l).find? q = some (f a) := by
  induction l with
  | nil => simp at hfind
  | cons x xs ih =>
    by_cases hx : p x = true
    · rw [List.find?_cons_of_pos _ hx] at hfind
      injection hfind with hfind
      subst hfind
      simp [replaceFirst, hx, List.find?_cons_of_pos, hqa]
    · have hx' : p x = false := by simpa using hx
      rw [List.find?_cons_of_neg _ (by simp [hx'])] at hfind
      have hq : q x = false := hnone x (by simp)
      have := ih (fun y hy => hnone y (by simp [hy])) hfind
      simp [replaceFirst, hx', List.find?_cons_of_neg, hq, this]

theorem mem_replaceFirst_of_find? (p : α → Bool) (f : α → α) (l : List α) (a : α)
    (hfind : l.find? p = some a) : f a ∈ replaceFirst p f l := by
  induction l with
  | nil => simp at hfind
  | cons x xs ih =>
    by_cases hx : p x = true
    · rw [List.find?_cons_of_pos _ hx] at hfind
      injection hfind with hfind
      subst hfind
      simp [replaceFirst, hx]
    · have hx' : p x = false := by simpa using hx
      rw [List.find?_cons_of_neg _ (by simp [hx'])] at hfind
      simp [replaceFirst, hx', ih hfind]

theorem find?_append_of_none (p : α → Bool) (l₁ l₂ : List α)
    (h : ∀ x ∈ l₁, p x = false) : (l₁ ++ l₂).find? p = l₂.find? p := by
  induction l₁ with
  | nil => rfl
  | cons x xs ih =>
    have hx : p x = false := h x (by simp)
    simp only [List.cons_append]
    rw [List.find?_cons_of_neg _ (by simp [hx])]
    exact ih (fun y hy => h y (by simp [hy]))

theorem find?_isSome_of_mem (p : α → Bool) (l : List α) (a : α)
    (ha : a ∈ l) (hpa : p a = true) : (l.find? p).isSome = true := by
  induction l with
  | nil => simp at ha
  | cons x xs ih =>
    by_cases hx : p x = true
    · simp [List.find?_cons_of_pos _ hx]
    · have hx' : p x = false := by simpa using hx
      rw [List.find?_cons_of_neg _ (by simp [hx'])]
      rcases List.mem_cons.mp ha with rfl | ha'
      · simp [hx'] at hpa
      · exact ih ha'

/-! ## Preservation lemmas for the walmart resolution and upsert steps -/

theorem focci_parts (db : DB) (ch : Nat) (code : String) (nm : Option String) :
    (find_or_create_channel_item db ch code nm).1.channels = db.channels
    ∧ (find_or_create_channel_item db ch code nm).1.items = db.items
    ∧ (find_or_create_channel_item db ch code nm).1.facts = db.facts
    ∧ (find_or_create_channel_item db ch code nm).1.error_records = db.error_records := by
  unfold find_or_create_channel_item
  split <;> try exact ⟨rfl, rfl, rfl, rfl⟩
  split <;> try exact ⟨rfl, rfl, rfl, rfl⟩
  split <;> exact ⟨rfl, rfl, rfl, rfl⟩

theorem ucn_parts (db : DB) (found : Bool) (ch : Nat) (code nm : String) :
    (update_channel_item_name db found ch code nm).channels = db.channels
    ∧ (update_channel_item_name db found ch code nm).items = db.items
    ∧ (update_channel_item_name db found ch code nm).facts = db.facts
    ∧ (update_channel_item_name db found ch code nm).error_records = db.error_records := by
  unfold update_channel_item_name
  split <;> exact ⟨rfl, rfl, rfl, rfl⟩

theorem walmart_upsert_parts (db : DB) (d : Int) (b iid : Option Nat) (ch : Nat)
    (code : String) (r : Rat) (u s : Int) (x y z : Option Rat) :
    (walmart_upsert db d b iid ch code r u s x y z).1.channels = db.channels
    ∧ (walmart_upsert db d b iid ch code r u s x y z).1.items = db.items
    ∧ (walmart_upsert db d b iid ch code r u s x y z).1.channel_items = db.channel_items
    ∧ (walmart_upsert db d b iid ch code r u s x y z).1.error_records = db.error_records := by
  unfold walmart_upsert
  dsimp only
  split <;> exact ⟨rfl, rfl, rfl, rfl⟩

/-! ## Resolution stability lemmas -/

theorem focci_found_of_first (db : DB) (ch : Nat) (code : String) (nm : Option String)
    (c : ChannelItem) (h : db.channel_items.find? (ciByCode ch code) = some c) :
    find_or_create_channel_item db ch code nm = (db, some c.item_id, true) := by
  unfold find_or_create_channel_item
  rw [h]

theorem focci_none_of_misses (db : DB) (ch : Nat) (code : String) (nm : Option String)
    (h1 : db.channel_items.find? (ciByCode ch code) = none)
    (h2 : db.items.find? (fun it => it.essor_code == some code) = none) :
    find_or_create_channel_item db ch code nm = (db, none, false) := by
  unfold find_or_create_channel_item
  rw [h1, h2]

theorem focci_resolves_none (db : DB) (ch : Nat) (code : String) (nm : Option String)
    (h : (find_or_create_channel_item db ch code nm).2.1 = none) :
    (find_or_create_channel_item db ch code nm).1 = db
    ∧ (find_or_create_channel_item db ch code nm).2.2 = false
    ∧ db.channel_items.find? (ciByCode ch code) = none
    ∧ db.items.find? (fun it => it.essor_code == some code) = none := by
  cases hc : db.channel_items.find? (ciByCode ch code) with
  | some c0 =>
    rw [focci_found_of_first db ch code nm c0 hc] at h
    simp at h
  | none =>
    cases hit : db.items.find? (fun it => it.essor_code == some code) with
    | some item =>
      cases hci : db.channel_items.find? (ciByItem ch item.id) with
      | some a => simp [find_or_create_channel_item, hc, hit, hci] at h
      | none => simp [find_or_create_channel_item, hc, hit, hci] at h
    | none =>
      rw [focci_none_of_misses db ch code nm hc hit]
      exact ⟨rfl, rfl, rfl, rfl⟩

theorem focci_resolves_some (db : DB) (ch : Nat) (code : String) (nm : Option String)
    (i : Nat) (h : (find_or_create_channel_item db ch code nm).2.1 = some i) :
    ∃ c, (find_or_create_channel_item db ch code nm).1.channel_items.find?
          (ciByCode ch code) = some c ∧ c.item_id = i := by
  cases hc : db.channel_items.find? (ciByCode ch code) with
  | some c0 =>
    rw [focci_found_of_first db ch code nm c0 hc] at h ⊢
    injection h with h
    exact ⟨c0, hc, h⟩
  | none =>
    have hnone : ∀ x ∈ db.channel_items, ciByCode ch code x = false := by
      intro x hx
      simpa using List.find?_eq_none.mp hc x hx
    cases hit : db.items.find? (fun it => it.essor_code == some code) with
    | none =>
      rw [focci_none_of_misses db ch code nm hc hit] at h
      simp at h
    | some item =>
      cases hci : db.channel_items.find? (ciByItem ch item.id) with
      | some a =>
        simp only [find_or_create_channel_item, hc, hit, hci] at h ⊢
        injection h with h
        subst h
        have hpa : ciByItem ch item.id a = true := List.find?_some hci
        simp only [ciByItem, Bool.and_eq_true, beq_iff_eq] at hpa
        refine ⟨_, find?_replaceFirst_cross (ciByItem ch item.id) (ciByCode ch code) _
          db.channel_items a hnone hci ?_, ?_⟩
        · simp [ciByCode, hpa.1]
        · simp [hpa.2]
      | none =>
        simp only [find_or_create_channel_item, hc, hit, hci] at h ⊢
        injection h with h
        subst h
        refine ⟨{ id := db.next_id, channel_id := ch, item_id := item.id,
                  channel_code := code,
                  channel_name := pyStrOr nm (pyStrOr item.essor_name code) }, ?_, rfl⟩
        rw [find?_append_of_none _ _ _ hnone]
        rw [List.find?_cons_of_pos _ (by simp [ciByCode])]

theorem ucn_keeps_resolution (db : DB) (found : Bool) (ch : Nat) (code nm : String)
    (c : ChannelItem) (hc : db.channel_items.find? (ciByCode ch code) = some c) :
    ∃ c2, (update_channel_item_name db found ch code nm).channel_items.find?
        (ciByCode ch code) = some c2 ∧ c2.item_id = c.item_id := by
  unfold update_channel_item_name
  split
  · refine ⟨_, find?_replaceFirst_self (ciByCode ch code) _ db.channel_items c hc ?_, rfl⟩
    have := List.find?_some hc
    simpa [ciByCode] using this
  · exact ⟨c, hc, rfl⟩

theorem walmart_brand_of_congr (db db2 : DB) (x : Option Nat)
    (h : db2.items = db.items) : walmart_brand_of db2 x = walmart_brand_of db x := by
  unfold walmart_brand_of
  rw [h]

/-- After a walmart upsert, some fact carrying the applicable natural key
is present in the table. -/
theorem walmart_upsert_writes_key (db : DB) (d : Int) (b iid : Option Nat) (ch : Nat)
    (code : String) (r : Rat) (u s : Int) (x y z : Option Rat) :
    ∃ f ∈ (walmart_upsert db d b iid ch code r u s x y z).1.facts,
      walmartKeyFor iid d ch code f = true := by
  unfold walmart_upsert
  dsimp only
  cases hf : db.facts.find? (walmartKeyFor iid d ch code) with
  | some a =>
    have hpa := List.find?_some hf
    dsimp only
    refine ⟨_, mem_replaceFirst_of_find? _ _ _ _ hf, ?_⟩
    cases iid with
    | none =>
      simp only [walmartKeyFor, factUnlinkedKey, Bool.and_eq_true, beq_iff_eq] at hpa ⊢
      tauto
    | some i =>
      simp only [walmartKeyFor, factLinkedKey, Bool.and_eq_true, beq_iff_eq] at hpa ⊢
      tauto
  | none =>
    dsimp only
    refine ⟨_, List.mem_append_right _ (List.mem_singleton_self _), ?_⟩
    cases iid with
    | none => simp [walmartKeyFor, factUnlinkedKey]
    | some i => simp [walmartKeyFor, factLinkedKey]

/-- When a fact with the applicable natural key already exists, the upsert
reports an update and leaves the table length unchanged. -/
theorem walmart_upsert_hit (db : DB) (d : Int) (b iid : Option Nat) (ch : Nat)
    (code : String) (r : Rat) (u s : Int) (x y z : Option Rat)
    (h : ∃ f ∈ db.facts, walmartKeyFor iid d ch code f = true) :
    (walmart_upsert db d b iid ch code r u s x y z).2 = .updated
    ∧ (walmart_upsert db d b iid ch code r u s x y z).1.facts.length
        = db.facts.length := by
  obtain ⟨f, hmem, hkey⟩ := h
  have hsome : (db.facts.find? (walmartKeyFor iid d ch code)).isSome = true :=
    find?_isSome_of_mem _ _ _ hmem hkey
  unfold walmart_upsert
  dsimp only
  cases hf : db.facts.find? (walmartKeyFor iid d ch code) with
  | some a => exact ⟨rfl, length_replaceFirst _ _ _⟩
  | none => rw [hf] at hsome; simp at hsome

/-- If the walmart row body succeeds on some database, running it again on
the produced database succeeds as an update of the fact written by the
first run: the resolution is stable and the upsert finds the row by its
natural key, leaving the fact count unchanged. -/
theorem walmart_body_second (row : WRow) (db db1 : DB) (oc : RowOutcome)
    (h : walmart_try_body row db = .ok (db1, oc)) :
    ∃ db2, walmart_try_body row db1 = .ok (db2, .updated)
      ∧ db2.facts.length = db1.facts.length := by
  unfold walmart_try_body at h ⊢
  cases hp : parse_walmart_row row with
  | error e =>
    rw [hp] at h
    simp at h
  | ok p =>
    rw [hp] at h
    dsimp only at h ⊢
    cases hcb : db.channels.contains 2 with
    | false => rw [hcb] at h; simp at h
    | true =>
      rw [hcb] at h
      rw [if_neg (by simp)] at h
      rcases hfo : find_or_create_channel_item db 2 p.channel_code (some p.channel_name)
        with ⟨dbA, iid, fb⟩
      rw [hfo] at h
      dsimp only at h
      cases hbr : walmart_brand_of
          (update_channel_item_name dbA fb 2 p.channel_code p.channel_name) iid with
      | error e => rw [hbr] at h; simp at h
      | ok b =>
        rw [hbr] at h
        dsimp only at h
        injection h with h
        -- names for the intermediate states of the first pass
        have hAch : dbA.channels = db.channels := by
          have := (focci_parts db 2 p.channel_code (some p.channel_name)).1
          rw [hfo] at this; exact this
        have hAit : dbA.items = db.items := by
          have := (focci_parts db 2 p.channel_code (some p.channel_name)).2.1
          rw [hfo] at this; exact this
        have hWch := (ucn_parts dbA fb 2 p.channel_code p.channel_name).1
        have hWit := (ucn_parts dbA fb 2 p.channel_code p.channel_name).2.1
        have hWfa := (ucn_parts dbA fb 2 p.channel_code p.channel_name).2.2.1
        have h1 : db1 = (walmart_upsert
            (update_channel_item_name dbA fb 2 p.channel_code p.channel_name)
            p.week_date b iid 2 p.channel_code p.revenues p.units p.stores
            p.usd_pspw p.units_pspw p.instock).1 := by rw [h]
        have h1ch : db1.channels = db.channels := by
          rw [h1]
          rw [(walmart_upsert_parts _ _ _ _ _ _ _ _ _ _ _ _).1, hWch, hAch]
        have h1it : db1.items = db.items := by
          rw [h1]
          rw [(walmart_upsert_parts _ _ _ _ _ _ _ _ _ _ _ _).2.1, hWit, hAit]
        have h1ci : db1.channel_items = (update_channel_item_name dbA fb 2
            p.channel_code p.channel_name).channel_items := by
          rw [h1]
          exact (walmart_upsert_parts _ _ _ _ _ _ _ _ _ _ _ _).2.2.1
        have h1fa : db1.facts = (walmart_upsert
            (update_channel_item_name dbA fb 2 p.channel_code p.channel_name)
            p.week_date b iid 2 p.channel_code p.revenues p.units p.stores
            p.usd_pspw p.units_pspw p.instock).1.facts := by rw [h1]
        rw [h1ch, hcb, if_neg (by simp)]
        -- the first pass wrote a fact carrying the natural key for iid
        have hwrote : ∃ f ∈ db1.facts,
            walmartKeyFor iid p.week_date 2 p.channel_code f = true := by
          rw [h1fa]
          exact walmart_upsert_writes_key _ _ _ _ _ _ _ _ _ _ _ _
        cases hiid : iid with
        | some i =>
          -- the resolution is stable: the alias by code still maps to i
          obtain ⟨c, hcfind, hcid⟩ := focci_resolves_some db 2 p.channel_code
            (some p.channel_name) i (by rw [hfo, hiid])
          rw [hfo] at hcfind
          obtain ⟨c2, hc2find, hc2id⟩ := ucn_keeps_resolution dbA fb 2
            p.channel_code p.channel_name c hcfind
          have hfind1 : db1.channel_items.find? (ciByCode 2 p.channel_code) = some c2 := by
            rw [h1ci]; exact hc2find
          have hi2 : c2.item_id = i := by rw [hc2id, hcid]
          rw [focci_found_of_first db1 2 p.channel_code (some p.channel_name) c2 hfind1]
          dsimp only
          have hW2it : (update_channel_item_name db1 true 2 p.channel_code
              p.channel_name).items = db1.items :=
            (ucn_parts db1 true 2 p.channel_code p.channel_name).2.1
          have hW2fa : (update_channel_item_name db1 true 2 p.channel_code
              p.channel_name).facts = db1.facts :=
            (ucn_parts db1 true 2 p.channel_code p.channel_name).2.2.1
          have hcg : walmart_brand_of (update_channel_item_name db1 true 2
                p.channel_code p.channel_name) (some c2.item_id)
              = walmart_brand_of (update_channel_item_name dbA fb 2
                p.channel_code p.channel_name) (some c2.item_id) :=
            walmart_brand_of_congr
              (update_channel_item_name dbA fb 2 p.channel_code p.channel_name)
              (update_channel_item_name db1 true 2 p.channel_code p.channel_name)
              (some c2.item_id) (by rw [hW2it, h1it, ← hAit, ← hWit])
          have hbr2 : walmart_brand_of (update_channel_item_name db1 true 2
              p.channel_code p.channel_name) (some c2.item_id) = .ok b := by
            rw [hcg, hi2, ← hiid]
            exact hbr
          rw [hbr2]
          dsimp only
          have hhit := walmart_upsert_hit (update_channel_item_name db1 true 2
              p.channel_code p.channel_name) p.week_date b (some c2.item_id) 2
              p.channel_code p.revenues p.units p.stores p.usd_pspw p.units_pspw
              p.instock (by rw [hW2fa, hi2, ← hiid]; exact hwrote)
          refine ⟨(walmart_upsert (update_channel_item_name db1 true 2
              p.channel_code p.channel_name) p.week_date b (some c2.item_id) 2
              p.channel_code p.revenues p.units p.stores p.usd_pspw p.units_pspw
              p.instock).1, ?_, ?_⟩
          · rw [← hhit.1]
          · rw [hhit.2, hW2fa]
        | none =>
          obtain ⟨hA, hfb, hnone1, hnone2⟩ := focci_resolves_none db 2 p.channel_code
            (some p.channel_name) (by rw [hfo, hiid])
          rw [hfo] at hA hfb
          have hAeq : dbA = db := hA
          have hfbeq : fb = false := hfb
          have hfind1 : db1.channel_items.find? (ciByCode 2 p.channel_code) = none := by
            rw [h1ci]
            have huc : (update_channel_item_name dbA fb 2 p.channel_code
                p.channel_name).channel_items = dbA.channel_items := by
              rw [hfbeq]
              unfold update_channel_item_name
              simp
            rw [huc, hAeq, hnone1]
          have hfind2 : db1.items.find? (fun it => it.essor_code == some p.channel_code)
              = none := by rw [h1it, hnone2]
          rw [focci_none_of_misses db1 2 p.channel_code (some p.channel_name)
            hfind1 hfind2]
          dsimp only
          have hW2 : update_channel_item_name db1 false 2 p.channel_code
              p.channel_name = db1 := by
            unfold update_channel_item_name
            simp
          rw [hW2]
          have hbr2 : walmart_brand_of db1 none = .ok none := rfl
          rw [hbr2]
          dsimp only
          have hhit := walmart_upsert_hit db1 p.week_date none none 2
              p.channel_code p.revenues p.units p.stores p.usd_pspw p.units_pspw
              p.instock (by rw [← hiid]; exact hwrote)
          refine ⟨(walmart_upsert db1 p.week_date none none 2 p.channel_code
              p.revenues p.units p.stores p.usd_pspw p.units_pspw p.instock).1,
              ?_, ?_⟩
          · rw [← hhit.1]
          · exact hhit.2

/-- Second-pass behavior of process_walmart_row: a row processed
successfully once is processed again as a pure in-place update, with the
created counter untouched and the fact count unchanged. -/
theorem process_walmart_row_second (row : WRow) (n1 n2 : Nat) (st st1 : SessState)
    (res res1 res2 : Results) (dr1 dr2 : Bool)
    (h : process_walmart_row row n1 st res dr1 = (st1, res1, true)) :
    ∃ db2, process_walmart_row row n2 ⟨st1.current, st1.current⟩ res2 dr2 =
        (⟨st1.current, db2⟩, { res2 with processed := res2.processed + 1,
                                         updated := res2.updated + 1 }, true)
      ∧ db2.facts.length = st1.current.facts.length := by
  unfold process_walmart_row at h ⊢
  cases hb : walmart_try_body row st.current with
  | error e =>
    rw [hb] at h
    simp at h
  | ok pr =>
    obtain ⟨db1, oc⟩ := pr
    rw [hb] at h
    dsimp only at h
    have hst : st1.current = db1 := by
      have h' := congrArg (fun x => x.1.current) h
      exact h'.symm
    obtain ⟨db2, hsec, hlen⟩ := walmart_body_second row st.current db1 oc hb
    refine ⟨db2, ?_, ?_⟩
    · dsimp only
      rw [hst, hsec]
    · rw [hst]
      exact hlen

/-! ## Netsuite resolution stability and upsert lemmas -/

theorem ensure_parts (db : DB) (rc rt : Option String) :
    (ensure_netsuite_code db rc rt).1.brands = db.brands
    ∧ (ensure_netsuite_code db rc rt).1.items = db.items
    ∧ (ensure_netsuite_code db rc rt).1.netsuite_data = db.netsuite_data := by
  unfold ensure_netsuite_code
  split
  · split <;> exact ⟨rfl, rfl, rfl⟩
  · exact ⟨rfl, rfl, rfl⟩

theorem brand_parts (db : DB) (bn : String) :
    (find_or_create_brand db bn).1.netsuite_codes = db.netsuite_codes
    ∧ (find_or_create_brand db bn).1.items = db.items
    ∧ (find_or_create_brand db bn).1.netsuite_data = db.netsuite_data
    ∧ (find_or_create_brand db bn).1.brands.length ≥ db.brands.length := by
  unfold find_or_create_brand
  split
  · exact ⟨rfl, rfl, rfl, le_refl _⟩
  · split
    · exact ⟨rfl, rfl, rfl, le_refl _⟩
    · exact ⟨rfl, rfl, rfl, by simp⟩

theorem ns_item_parts (db : DB) (ec : String) (br : Brand) :
    (ns_find_or_create_item db ec br).1.netsuite_codes = db.netsuite_codes
    ∧ (ns_find_or_create_item db ec br).1.brands = db.brands
    ∧ (ns_find_or_create_item db ec br).1.netsuite_data = db.netsuite_data := by
  unfold ns_find_or_create_item
  split <;> exact ⟨rfl, rfl, rfl⟩

theorem ns_upsert_parts (db : DB) (d : Int) (b i : Nat) (ch cu : Option Nat)
    (r : Rat) (u : Int) (rc : Option String) :
    (netsuite_upsert db d b i ch cu r u rc).1.netsuite_codes = db.netsuite_codes
    ∧ (netsuite_upsert db d b i ch cu r u rc).1.brands = db.brands
    ∧ (netsuite_upsert db d b i ch cu r u rc).1.items = db.items := by
  unfold netsuite_upsert
  split <;> exact ⟨rfl, rfl, rfl⟩

/-- Re-running the retailer-mapping step on any database whose
netsuite_codes table matches the post state finds the mapping and returns
the same channel and customer with no creation. -/
theorem ensure_second (db db2 : DB) (rc rt : Option String)
    (hcodes : db2.netsuite_codes = (ensure_netsuite_code db rc rt).1.netsuite_codes) :
    ensure_netsuite_code db2 rc rt =
      (db2, 0, (ensure_netsuite_code db rc rt).2.2.1,
        (ensure_netsuite_code db rc rt).2.2.2) := by
  cases htr : strTruthy rc with
  | false =>
    unfold ensure_netsuite_code
    rw [if_neg (by simp [htr]), if_neg (by simp [htr])]
  | true =>
    cases hf : db.netsuite_codes.find? (fun m => m.netsuite_code == rc.getD "") with
    | some m =>
      have he : ensure_netsuite_code db rc rt = (db, 0, m.channel_id, m.customer_id) := by
        unfold ensure_netsuite_code
        rw [if_pos htr, hf]
      have hcodes2 : db2.netsuite_codes = db.netsuite_codes := by
        rw [hcodes, he]
      rw [he]
      unfold ensure_netsuite_code
      rw [if_pos htr, hcodes2, hf]
    | none =>
      have hnone : ∀ x ∈ db.netsuite_codes,
          (x.netsuite_code == rc.getD "") = false := by
        intro x hx
        simpa using List.find?_eq_none.mp hf x hx
      obtain ⟨M, hMcodes, hMcode, hP1, hP2⟩ :
          ∃ M : NetsuiteCode,
            (ensure_netsuite_code db rc rt).1.netsuite_codes
                = db.netsuite_codes ++ [M]
            ∧ (M.netsuite_code == rc.getD "") = true
            ∧ (ensure_netsuite_code db rc rt).2.2.1 = M.channel_id
            ∧ (ensure_netsuite_code db rc rt).2.2.2 = M.customer_id := by
        unfold ensure_netsuite_code
        rw [if_pos htr, hf]
        exact ⟨_, rfl, by simp, rfl, rfl⟩
      rw [hP1, hP2]
      unfold ensure_netsuite_code
      rw [if_pos htr, hcodes, hMcodes, find?_append_of_none _ _ _ hnone]
      simp [hMcode]

/-- Re-running the brand step on the post state finds the same brand with
no creation. -/
theorem brand_second (db db2 : DB) (bn : String)
    (hbr : db2.brands = (find_or_create_brand db bn).1.brands) :
    find_or_create_brand db2 bn = (db2, 0, (find_or_create_brand db bn).2.2) := by
  cases hn : db.brands.find? (fun b => b.name == bn) with
  | some b =>
    have he : find_or_create_brand db bn = (db, 0, b) := by
      unfold find_or_create_brand
      rw [hn]
    have hbr2 : db2.brands = db.brands := by rw [hbr, he]
    rw [he]
    unfold find_or_create_brand
    rw [hbr2, hn]
  | none =>
    cases hc : db.brands.find? (fun b => b.code == some bn) with
    | some b =>
      have he : find_or_create_brand db bn = (db, 0, b) := by
        unfold find_or_create_brand
        rw [hn, hc]
      have hbr2 : db2.brands = db.brands := by rw [hbr, he]
      rw [he]
      unfold find_or_create_brand
      rw [hbr2, hn, hc]
    | none =>
      have hnone : ∀ x ∈ db.brands, (x.name == bn) = false := by
        intro x hx
        simpa using List.find?_eq_none.mp hn x hx
      obtain ⟨B, hBbrands, hBname, hP⟩ :
          ∃ B : Brand, (find_or_create_brand db bn).1.brands = db.brands ++ [B]
            ∧ (B.name == bn) = true
            ∧ (find_or_create_brand db bn).2.2 = B := by
        unfold find_or_create_brand
        rw [hn, hc]
        exact ⟨_, rfl, by simp, rfl⟩
      rw [hP]
      unfold find_or_create_brand
      rw [hbr, hBbrands, find?_append_of_none _ _ _ hnone]
      simp [hBname]

/-- Re-running the item step on the post state finds the same item with no
creation (the brand argument is irrelevant once the item exists). -/
theorem ns_item_second (db db2 : DB) (ec : String) (br br2 : Brand)
    (hit : db2.items = (ns_find_or_create_item db ec br).1.items) :
    ns_find_or_create_item db2 ec br2 =
      (db2, 0, (ns_find_or_create_item db ec br).2.2) := by
  cases hn : db.items.find? (fun it => it.essor_code == some ec) with
  | some it =>
    have he : ns_find_or_create_item db ec br = (db, 0, it) := by
      unfold ns_find_or_create_item
      rw [hn]
    have hit2 : db2.items = db.items := by rw [hit, he]
    rw [he]
    unfold ns_find_or_create_item
    rw [hit2, hn]
  | none =>
    have hnone : ∀ x ∈ db.items, (x.essor_code == some ec) = false := by
      intro x hx
      simpa using List.find?_eq_none.mp hn x hx
    obtain ⟨I, hIitems, hIcode, hP⟩ :
        ∃ I : Item, (ns_find_or_create_item db ec br).1.items = db.items ++ [I]
          ∧ (I.essor_code == some ec) = true
          ∧ (ns_find_or_create_item db ec br).2.2 = I := by
      unfold ns_find_or_create_item
      rw [hn]
      exact ⟨_, rfl, by simp, rfl⟩
    rw [hP]
    unfold ns_find_or_create_item
    rw [hit, hIitems, find?_append_of_none _ _ _ hnone]
    simp [hIcode]

/-- After a netsuite upsert, some fact carrying the natural key is in the
table. -/
theorem ns_upsert_writes_key (db : DB) (d : Int) (b i : Nat) (ch cu : Option Nat)
    (r : Rat) (u : Int) (rc : Option String) :
    ∃ f ∈ (netsuite_upsert db d b i ch cu r u rc).1.netsuite_data,
      nsFactKey d ch cu i f = true := by
  unfold netsuite_upsert
  cases hf : db.netsuite_data.find? (nsFactKey d ch cu i) with
  | some a =>
    have hpa := List.find?_some hf
    dsimp only
    refine ⟨_, mem_replaceFirst_of_find? _ _ _ _ hf, ?_⟩
    simp only [nsFactKey, Bool.and_eq_true, beq_iff_eq] at hpa ⊢
    tauto
  | none =>
    dsimp only
    refine ⟨_, List.mem_append_right _ (List.mem_singleton_self _), ?_⟩
    simp [nsFactKey]

/-- When a netsuite fact with the natural key exists, the upsert reports an
update and keeps the table length. -/
theorem ns_upsert_hit (db : DB) (d : Int) (b i : Nat) (ch cu : Option Nat)
    (r : Rat) (u : Int) (rc : Option String)
    (h : ∃ f ∈ db.netsuite_data, nsFactKey d ch cu i f = true) :
    (netsuite_upsert db d b i ch cu r u rc).2 = .updated
    ∧ (netsuite_upsert db d b i ch cu r u rc).1.netsuite_data.length
        = db.netsuite_data.length := by
  obtain ⟨f, hmem, hkey⟩ := h
  have hsome := find?_isSome_of_mem _ _ _ hmem hkey
  unfold netsuite_upsert
  cases hf : db.netsuite_data.find? (nsFactKey d ch cu i) with
  | some a => exact ⟨rfl, length_replaceFirst _ _ _⟩
  | none => rw [hf] at hsome; simp at hsome

/-- If the netsuite row step succeeds on some database, running it again on
the produced database is a pure update: every dimension lookup now hits,
no entity is created, and the fact is found by its natural key. -/
theorem ns_step_second (row : NSRow) (db db1 : DB) (ec : Nat) (oc : RowOutcome)
    (h : netsuite_row_step row db = .ok (db1, ec, oc)) :
    ∃ db2, netsuite_row_step row db1 = .ok (db2, 0, .updated)
      ∧ db2.netsuite_data.length = db1.netsuite_data.length := by
  unfold netsuite_row_step at h ⊢
  cases hd : parse_ns_date row.dateVal with
  | error e =>
    rw [hd] at h
    simp at h
  | ok date =>
    rw [hd] at h
    dsimp only at h ⊢
    rcases he1 : ensure_netsuite_code db row.retailer_code row.retailer
      with ⟨dbA, ec1, chid, cuid⟩
    rw [he1] at h
    dsimp only at h
    cases hbt : strTruthy row.brand with
    | false =>
      rw [if_pos (by simp [hbt])] at h
      simp at h
    | true =>
      rw [if_neg (by simp [hbt])] at h
      rcases hb1 : find_or_create_brand dbA (row.brand.getD "")
        with ⟨dbB, ec2, brand⟩
      rw [hb1] at h
      dsimp only at h
      cases het : strTruthy row.essor_code with
      | false =>
        rw [if_pos (by simp [het])] at h
        simp at h
      | true =>
        rw [if_neg (by simp [het])] at h
        rcases hi1 : ns_find_or_create_item dbB (row.essor_code.getD "") brand
          with ⟨dbC, ec3, item⟩
        rw [hi1] at h
        dsimp only at h
        rcases hu1 : netsuite_upsert dbC date item.brand_id item.id chid cuid
            (row.revenues.getD 0) (truncRat (row.units.getD 0)) row.retailer_code
          with ⟨dbD, oc1⟩
        rw [hu1] at h
        dsimp only at h
        injection h with h
        have hdb1 : db1 = dbD := (congrArg (fun x => x.1) h).symm
        -- table preservations along the first pass
        have hCDcodes : dbD.netsuite_codes = dbC.netsuite_codes := by
          have hq := (ns_upsert_parts dbC date item.brand_id item.id chid cuid
            (row.revenues.getD 0) (truncRat (row.units.getD 0)) row.retailer_code).1
          rw [hu1] at hq; exact hq
        have hCDbrands : dbD.brands = dbC.brands := by
          have hq := (ns_upsert_parts dbC date item.brand_id item.id chid cuid
            (row.revenues.getD 0) (truncRat (row.units.getD 0)) row.retailer_code).2.1
          rw [hu1] at hq; exact hq
        have hCDitems : dbD.items = dbC.items := by
          have hq := (ns_upsert_parts dbC date item.brand_id item.id chid cuid
            (row.revenues.getD 0) (truncRat (row.units.getD 0)) row.retailer_code).2.2
          rw [hu1] at hq; exact hq
        have hBCcodes : dbC.netsuite_codes = dbB.netsuite_codes := by
          have hq := (ns_item_parts dbB (row.essor_code.getD "") brand).1
          rw [hi1] at hq; exact hq
        have hBCbrands : dbC.brands = dbB.brands := by
          have hq := (ns_item_parts dbB (row.essor_code.getD "") brand).2.1
          rw [hi1] at hq; exact hq
        have hABcodes : dbB.netsuite_codes = dbA.netsuite_codes := by
          have hq := (brand_parts dbA (row.brand.getD "")).1
          rw [hb1] at hq; exact hq
        -- pass-two dimension steps all hit
        have hens2 : ensure_netsuite_code db1 row.retailer_code row.retailer
            = (db1, 0, chid, cuid) := by
          have hq := ensure_second db db1 row.retailer_code row.retailer
            (by rw [hdb1, hCDcodes, hBCcodes, hABcodes, he1])
          rw [he1] at hq
          exact hq
        have hbrand2 : find_or_create_brand db1 (row.brand.getD "")
            = (db1, 0, brand) := by
          have hq := brand_second dbA db1 (row.brand.getD "")
            (by rw [hdb1, hCDbrands, hBCbrands, hb1])
          rw [hb1] at hq
          exact hq
        have hitem2 : ns_find_or_create_item db1 (row.essor_code.getD "") brand
            = (db1, 0, item) := by
          have hq := ns_item_second dbB db1 (row.essor_code.getD "") brand brand
            (by rw [hdb1, hCDitems, hi1])
          rw [hi1] at hq
          exact hq
        have hwrote : ∃ f ∈ db1.netsuite_data,
            nsFactKey date chid cuid item.id f = true := by
          rw [hdb1]
          have hq := ns_upsert_writes_key dbC date item.brand_id item.id chid cuid
            (row.revenues.getD 0) (truncRat (row.units.getD 0)) row.retailer_code
          rw [hu1] at hq
          exact hq
        have hhit := ns_upsert_hit db1 date item.brand_id item.id chid cuid
          (row.revenues.getD 0) (truncRat (row.units.getD 0)) row.retailer_code hwrote
        refine ⟨(netsuite_upsert db1 date item.brand_id item.id chid cuid
          (row.revenues.getD 0) (truncRat (row.units.getD 0)) row.retailer_code).1,
          ?_, ?_⟩
        · rw [hens2]
          dsimp only
          rw [if_neg (by simp [hbt])]
          rw [hbrand2]
          dsimp only
          rw [if_neg (by simp [het])]
          rw [hitem2]
          dsimp only
          rw [show netsuite_upsert db1 date item.brand_id item.id chid cuid
              (row.revenues.getD 0) (truncRat (row.units.getD 0)) row.retailer_code
              = ((netsuite_upsert db1 date item.brand_id item.id chid cuid
                  (row.revenues.getD 0) (truncRat (row.units.getD 0))
                  row.retailer_code).1, .updated) from by rw [← hhit.1]]
        · exact hhit.2

/-- Second-pass behavior of process_netsuite_row: a row processed without
being skipped is processed again as a pure in-place update, with the
created counter untouched and the fact count unchanged. -/
theorem process_netsuite_row_second (row : NSRow) (n1 n2 : Nat) (st st1 : SessState)
    (res res1 res2 : Results)
    (h : process_netsuite_row row n1 st res = (st1, res1))
    (hsk : res1.skipped = res.skipped) :
    ∃ db2, process_netsuite_row row n2 ⟨st1.current, st1.current⟩ res2 =
        (⟨st1.current, db2⟩, { res2 with processed := res2.processed + 1,
                                         updated := res2.updated + 1 })
      ∧ db2.netsuite_data.length = st1.current.netsuite_data.length := by
  unfold process_netsuite_row at h ⊢
  cases hb : netsuite_row_step row st.current with
  | error pr =>
    obtain ⟨msg, dbp, ecp⟩ := pr
    rw [hb] at h
    dsimp only at h
    have hcon : res1.skipped = res.skipped + 1 := by
      have h' := congrArg (fun x => x.2.skipped) h
      exact h'.symm
    exfalso
    omega
  | ok pr =>
    obtain ⟨db1, ec, oc⟩ := pr
    rw [hb] at h
    dsimp only at h
    have hst : st1.current = db1 := by
      have h' := congrArg (fun x => x.1.current) h
      exact h'.symm
    obtain ⟨db2, hsec, hlen⟩ := ns_step_second row st.current db1 ec oc hb
    refine ⟨db2, ?_, ?_⟩
    · dsimp only
      rw [hst, hsec]
      rfl
    · rw [hst]
      exact hlen

/-! ## Claim theorems -/

/-- Claim C1.  The claim states that a single failing row produces exactly
one durable ImportError and leaves every other row of the batch intact.
The code instead calls db.session.rollback in the row handler after adding
the ImportError to the session, and the sellthrough import commits only
once at the end, so the rollback discards the pending creates of every
earlier row and the just-recorded ImportError.  Evaluating the import of
the two-row walmart upload whose second row (ordinal 3) has the invalid
date banana: the run completes, the summary still reports one created and
one skipped row with the correct ordinal in the message, but the committed
database holds zero fact rows and zero ImportError records — where the
claim requires one fact row (from the good row 2) and exactly one
ImportError record. -/
theorem row_error_rollback_discards_batch :
    c1run = .completed wmDB c10res
    ∧ (outcomeDb c1run).facts = []
    ∧ (outcomeDb c1run).error_records = [] := by
  refine ⟨?_, ?_, ?_⟩ <;> decide

/-- Claim C2, counterexample.  A fact row is first persisted unlinked (no
item, matched by date, channel, raw channel code and absent customer).
An item making the link resolvable then appears, and the identical logical
row is imported again.  The claim says the second import updates the
existing fact row rather than creating a duplicate; the code instead looks
the fact up by the item-present key only, misses the unlinked row, and
inserts a second, linked fact row for the same logical row, leaving the
unlinked one in place and reporting created = 1, updated = 0. -/
theorem second_import_with_resolvable_item_duplicates :
    (outcomeDb c2run1).facts.map (fun f => f.item_id) = [none]
    ∧ (outcomeDb c2run2).facts.length = 2
    ∧ ((outcomeDb c2run2).facts.filter (fun f => f.item_id == none)).length = 1
    ∧ ((outcomeDb c2run2).facts.filter (fun f => f.item_id == some 5)).length = 1
    ∧ (outcomeResults c2run2).map (fun r => r.created) = some 1
    ∧ (outcomeResults c2run2).map (fun r => r.updated) = some 0 := by
  refine ⟨?_, ?_, ?_, ?_, ?_, ?_⟩ <;> decide

/-- Claim C2, amended.  When the second pass resolves an item and no fact
row with the item-present natural key exists yet — in particular when the
only matching fact row is still unlinked — the upsert inserts a new linked
fact row and leaves every existing fact row, the unlinked one included,
unchanged; it does not update the unlinked row in place. -/
theorem linked_upsert_misses_unlinked_creates_new :
    ∀ (db : DB) (d : Int) (b : Option Nat) (i ch : Nat) (code : String)
      (r : Rat) (u s : Int) (x y z : Option Rat),
      db.facts.find? (factLinkedKey d ch i) = none →
      (walmart_upsert db d b (some i) ch code r u s x y z).2 = .created
      ∧ (walmart_upsert db d b (some i) ch code r u s x y z).1.facts
          = db.facts ++
            [{ id := db.next_id, date := d, brand_id := b, item_id := some i,
               channel_id := ch, customer_id := none, revenues := r, units := u,
               stores := s, usd_pspw := x, units_pspw := y, instock := z,
               oos := none, channel_code := some code }] := by
  intro db d b i ch code r u s x y z h
  have h2 : db.facts.find? (walmartKeyFor (some i) d ch code) = none := h
  unfold walmart_upsert
  dsimp only
  rw [h2]
  exact ⟨rfl, rfl⟩

/-- Witness for the amended claim C2, at the state produced by the
first import of the X1 row (one unlinked fact row, no linked one). -/
theorem linked_upsert_misses_unlinked_creates_new_witness :
    (walmart_upsert c2db1 19723 (some 7) (some 5) 2 ("X1") 1 1 1 none none none).2
        = .created
    ∧ (walmart_upsert c2db1 19723 (some 7) (some 5) 2 ("X1") 1 1 1 none none none).1.facts
        = c2db1.facts ++
          [{ id := c2db1.next_id, date := 19723, brand_id := some 7, item_id := some 5,
             channel_id := 2, customer_id := none, revenues := 1, units := 1,
             stores := 1, usd_pspw := none, units_pspw := none, instock := none,
             oos := none, channel_code := some ("X1") }] :=
  linked_upsert_misses_unlinked_creates_new c2db1 19723 (some 7) 5 2 ("X1")
    1 1 1 none none none (by decide)

/-- Claim C3.  Per-period idempotence of both importers: a row the first
pass processed successfully (without skipping) is processed by a second
pass over the committed result as a pure in-place update — the second pass
finds the fact row by its natural key, reports one more processed and one
more updated row, leaves the created counter untouched, and leaves the
fact-row count unchanged.  The first conjunct covers the walmart CSV row
processor, the second the netsuite warehouse row processor. -/
theorem second_pass_is_update_in_place :
    (∀ (row : WRow) (n1 n2 : Nat) (st st1 : SessState)
        (res res1 res2 : Results) (dr1 dr2 : Bool),
      process_walmart_row row n1 st res dr1 = (st1, res1, true) →
      ∃ db2, process_walmart_row row n2 ⟨st1.current, st1.current⟩ res2 dr2 =
          (⟨st1.current, db2⟩, { res2 with processed := res2.processed + 1,
                                           updated := res2.updated + 1 }, true)
        ∧ db2.facts.length = st1.current.facts.length)
    ∧ (∀ (row : NSRow) (n1 n2 : Nat) (st st1 : SessState)
        (res res1 res2 : Results),
      process_netsuite_row row n1 st res = (st1, res1) →
      res1.skipped = res.skipped →
      ∃ db2, process_netsuite_row row n2 ⟨st1.current, st1.current⟩ res2 =
          (⟨st1.current, db2⟩, { res2 with processed := res2.processed + 1,
                                           updated := res2.updated + 1 })
        ∧ db2.netsuite_data.length = st1.current.netsuite_data.length) :=
  ⟨fun row n1 n2 st st1 res res1 res2 dr1 dr2 h =>
      process_walmart_row_second row n1 n2 st st1 res res1 res2 dr1 dr2 h,
   fun row n1 n2 st st1 res res1 res2 h hsk =>
      process_netsuite_row_second row n1 n2 st st1 res res1 res2 h hsk⟩

/-- Witness for claim C3: the concrete X1 walmart row over the database
holding its item, and the concrete netsuite row over the empty database;
both first passes succeed, and the theorem yields the second-pass update
behavior at these inputs. -/
theorem second_pass_is_update_in_place_witness :
    (∃ db2, process_walmart_row wrowX 3 ⟨wmPass1.1.current, wmPass1.1.current⟩
        Results.init false =
        (⟨wmPass1.1.current, db2⟩,
         { Results.init with processed := Results.init.processed + 1,
                             updated := Results.init.updated + 1 }, true)
      ∧ db2.facts.length = wmPass1.1.current.facts.length)
    ∧ (∃ db2, process_netsuite_row nsRow1 2 ⟨nsPass1.1.current, nsPass1.1.current⟩
        Results.init =
        (⟨nsPass1.1.current, db2⟩,
         { Results.init with processed := Results.init.processed + 1,
                             updated := Results.init.updated + 1 })
      ∧ db2.netsuite_data.length = nsPass1.1.current.netsuite_data.length) := by
  constructor
  · exact second_pass_is_update_in_place.1 wrowX 2 3 ⟨wmDBItem, wmDBItem⟩
      wmPass1.1 Results.init wmPass1.2.1 Results.init false false
      (by
        have hb : wmPass1.2.2 = true := by decide
        show wmPass1 = (wmPass1.1, wmPass1.2.1, true)
        rw [← hb])
  · exact second_pass_is_update_in_place.2 nsRow1 1 2 ⟨emptyDB, emptyDB⟩
      nsPass1.1 Results.init nsPass1.2 Results.init
      (by
        show nsPass1 = (nsPass1.1, nsPass1.2)
        rfl)
      (by decide)

/-- Claim C4, counterexample.  The claim states the warehouse fetcher
retries transient failures with exponential backoff before failing the
run.  With an oracle that fails transiently on the first attempt and
succeeds on the second, the spec-modelled retrying fetcher succeeds, but
the import of the source fails outright: the snowflake connection and
query run exactly once, with no retry loop anywhere on the path. -/
theorem fetch_does_not_retry_counterexample :
    execute_netsuite_import retryOracle emptyDB false
      = .error (("snowflake transport error ") ++ toString 429)
    ∧ spec_retry_fetch retryOracle 5 0 = .ok [] := by
  exact ⟨rfl, rfl⟩

/-- Claim C4, amended.  The warehouse fetcher performs exactly one query
attempt — the import outcome depends only on attempt 0 of the oracle — and
any transient failure (HTTP-equivalent or system-busy) fails the
entire import before any row is processed: the run produces no summary, no
per-row errors and no database change, because the exception propagates
ahead of the row loop. -/
theorem fetch_single_attempt_fails_run :
    (∀ (oracle oracle2 : Nat → FetchOutcome) (db : DB) (dr : Bool),
        oracle 0 = oracle2 0 →
        execute_netsuite_import oracle db dr = execute_netsuite_import oracle2 db dr)
    ∧ (∀ (oracle : Nat → FetchOutcome) (db : DB) (dr : Bool) (status : Nat),
        oracle 0 = .httpTransient status →
        execute_netsuite_import oracle db dr
          = .error (("snowflake transport error ") ++ toString status))
    ∧ (∀ (oracle : Nat → FetchOutcome) (db : DB) (dr : Bool),
        oracle 0 = .systemBusy →
        execute_netsuite_import oracle db dr = .error ("snowflake system busy")) := by
  refine ⟨?_, ?_, ?_⟩
  · intro oracle oracle2 db dr h
    unfold execute_netsuite_import snowflake_fetch
    rw [h]
  · intro oracle db dr status h
    unfold execute_netsuite_import snowflake_fetch
    rw [h]
  · intro oracle db dr h
    unfold execute_netsuite_import snowflake_fetch
    rw [h]

/-- Witness for the amended claim C4, at a concrete always-busy oracle. -/
theorem fetch_single_attempt_fails_run_witness :
    execute_netsuite_import (fun _ => .systemBusy) emptyDB true
      = .error ("snowflake system busy") :=
  fetch_single_attempt_fails_run.2.2 (fun _ => .systemBusy) emptyDB true rfl

/-- Claim C5, counterexample.  The claim fixes the resolution order as
internal code match first, then internal display-name match, then the
channel-alias lookups.  In a state where an item has internal code X while
a channel alias maps code X to a different item, the spec order resolves
the first item (id 1) but the implementation resolves through the alias
first (id 2): the implemented order is alias-by-code before internal code,
and no display-name lookup exists. -/
theorem item_resolution_order_counterexample :
    (find_or_create_channel_item resolveOrderDB 2 ("X") (some ("N"))).2.1 = some 2
    ∧ spec_resolve_item resolveOrderDB 2 ("X") ("N") = some 1
    ∧ (find_or_create_channel_item resolveOrderDB 2 ("X") (some ("N"))).2.1
        ≠ spec_resolve_item resolveOrderDB 2 ("X") ("N") := by
  refine ⟨?_, ?_, ?_⟩ <;> decide

/-- Claim C5, amended.  Item resolution tries the channel alias by
channel-specific code first and then an internal essor-code match on the
raw channel code; no display-name or alias-name lookup is performed, no
new Item is ever created by this path, and when resolution fails the row
is still persisted as an unlinked fact carrying the raw channel code —
never dropped. -/
theorem item_resolution_alias_code_then_internal_code :
    (∀ (db : DB) (ch : Nat) (code : String) (nm : Option String),
      (find_or_create_channel_item db ch code nm).2.1
        = code_resolution_order db ch code)
    ∧ (∀ (db : DB) (ch : Nat) (code : String) (nm : Option String),
      (find_or_create_channel_item db ch code nm).1.items = db.items)
    ∧ (∀ (db : DB) (d : Int) (b : Option Nat) (ch : Nat) (code : String)
        (r : Rat) (u s : Int) (x y z : Option Rat),
      ∃ f ∈ (walmart_upsert db d b none ch code r u s x y z).1.facts,
        f.item_id = none ∧ f.channel_code = some code ∧ f.date = d
          ∧ f.channel_id = ch ∧ f.customer_id = none) := by
  refine ⟨?_, ?_, ?_⟩
  · intro db ch code nm
    unfold find_or_create_channel_item code_resolution_order
    cases hc : db.channel_items.find? (ciByCode ch code) with
    | some c => rfl
    | none =>
      cases hit : db.items.find? (fun it => it.essor_code == some code) with
      | some item =>
        dsimp only
        cases hci : db.channel_items.find? (ciByItem ch item.id) with
        | some a => rfl
        | none => rfl
      | none => rfl
  · intro db ch code nm
    exact (focci_parts db ch code nm).2.1
  · intro db d b ch code r u s x y z
    obtain ⟨f, hmem, hkey⟩ := walmart_upsert_writes_key db d b none ch code r u s x y z
    refine ⟨f, hmem, ?_⟩
    simp only [walmartKeyFor, factUnlinkedKey, Bool.and_eq_true, beq_iff_eq] at hkey
    exact ⟨hkey.1.1.2, hkey.2, hkey.1.1.1.1, hkey.1.1.1.2, hkey.1.2⟩

/-- Claim C6, counterexample.  The literal abc is neither empty nor the
bare dash and float() cannot parse it, yet parse_numeric_value silently
returns its default (here 0) instead of signalling failure: the claim that
a numeric normalizer returns its default only for merely-empty input and
never substitutes a plausible value for a non-empty unparseable literal is
false for parse_numeric_value. -/
theorem parse_numeric_silent_default_counterexample :
    parse_numeric_value ("abc") (some 0) = some 0
    ∧ ("abc") ≠ ""
    ∧ pyStrip ("abc") ≠ ""
    ∧ pyStrip ("abc") ≠ ("-")
    ∧ pyFloatLit? ("abc") = none := by
  refine ⟨?_, ?_, ?_, ?_, ?_⟩ <;> decide

/-- Claim C6, amended.  parse_numeric_value never signals failure: for
every input string, either every default is returned verbatim (so an
unparseable non-empty literal silently yields the default) or the literal
parses to a value that does not depend on the default at all.
parse_percentage, by contrast, does signal failure on a non-empty
unparseable literal (Decimal raises InvalidOperation, which the except
clause of the source does not catch) and returns absent for merely-empty
input.  Both normalizers strip their punctuation and parse_numeric_value
honors a leading minus sign, as the concrete cases show. -/
theorem numeric_normalizer_default_behavior :
    (∀ (s : String) (d : Option Rat),
        (s = "" ∨ pyStrip s = "" ∨ pyStrip s = ("-")) →
        parse_numeric_value s d = d)
    ∧ (∀ s : String,
        (∀ d, parse_numeric_value s d = d)
        ∨ ∃ v, ∀ d, parse_numeric_value s d = some v)
    ∧ (∀ s : String,
        (s = "" ∨ pyStrip s = "" ∨ pyStrip s = ("-")) →
        parse_percentage s = .ok none)
    ∧ (∀ s : String,
        s ≠ "" → pyStrip s ≠ "" → pyStrip s ≠ ("-") →
        pyFloatLit? (pct_cleaned (pyStrip s)) = none →
        parse_percentage s
          = .error (("decimal.InvalidOperation: ") ++ pct_cleaned (pyStrip s)))
    ∧ parse_numeric_value ("$1,234.56") (some 0)
        = some (((1234 : Nat) : Rat) + ((56 : Nat) : Rat) / (10 : Rat) ^ 2)
    ∧ parse_numeric_value ("-$5") (some 0) = some (-((5 : Nat) : Rat))
    ∧ parse_numeric_value ("") none = none
    ∧ parse_percentage ("12.5%")
        = .ok (some (((12 : Nat) : Rat) + ((5 : Nat) : Rat) / (10 : Rat) ^ 1))
    ∧ parse_percentage ("") = .ok none := by
  refine ⟨?_, ?_, ?_, ?_, rfl, rfl, rfl, rfl, rfl⟩
  · intro s d h
    unfold parse_numeric_value
    rcases h with h | h | h
    · rw [if_pos h]
    · split
      · rfl
      · dsimp only
        rw [if_pos (Or.inl h)]
    · split
      · rfl
      · dsimp only
        rw [if_pos (Or.inr h)]
  · intro s
    by_cases h1 : s = ""
    · left
      intro d
      unfold parse_numeric_value
      rw [if_pos h1]
    · by_cases h2 : pyStrip s = "" ∨ pyStrip s = ("-")
      · left
        intro d
        unfold parse_numeric_value
        rw [if_neg h1]
        dsimp only
        rw [if_pos h2]
      · cases hfl : pyFloatLit? (pnv_core (pnv_cleaned (pyStrip s))) with
        | some x =>
          right
          refine ⟨if pnv_isNeg (pnv_cleaned (pyStrip s)) then -x else x, ?_⟩
          intro d
          unfold parse_numeric_value
          rw [if_neg h1]
          dsimp only
          rw [if_neg h2, hfl]
        | none =>
          left
          intro d
          unfold parse_numeric_value
          rw [if_neg h1]
          dsimp only
          rw [if_neg h2, hfl]
  · intro s h
    unfold parse_percentage
    rcases h with h | h | h
    · rw [if_pos h]
    · split
      · rfl
      · dsimp only
        rw [if_pos (Or.inl h)]
    · split
      · rfl
      · dsimp only
        rw [if_pos (Or.inr h)]
  · intro s h1 h2 h3 h4
    unfold parse_percentage
    rw [if_neg h1]
    dsimp only
    rw [if_neg (by simp [h2, h3]), h4]

/-- Witness for the amended claim C6: the empty-default part at the empty
string, the silent-default part at the literal abc, and the
failure-signalling part of parse_percentage at the literal abc. -/
theorem numeric_normalizer_default_behavior_witness :
    parse_numeric_value ("") (some 0) = some 0
    ∧ ((∀ d, parse_numeric_value ("abc") d = d)
        ∨ ∃ v, ∀ d, parse_numeric_value ("abc") d = some v)
    ∧ parse_percentage (" - ") = .ok none
    ∧ parse_percentage ("abc")
        = .error (("decimal.InvalidOperation: ") ++ pct_cleaned (pyStrip ("abc"))) := by
  refine ⟨?_, ?_, ?_, ?_⟩
  · exact numeric_normalizer_default_behavior.1 ("") (some 0) (Or.inl rfl)
  · exact numeric_normalizer_default_behavior.2.1 ("abc")
  · exact numeric_normalizer_default_behavior.2.2.1 (" - ") (Or.inr (Or.inr (by decide)))
  · exact numeric_normalizer_default_behavior.2.2.2.1 ("abc") (by decide) (by decide)
      (by decide) (by decide)

/-- Claim C7: the detector agrees with the first-match rule over the
ordered format registry on every header list; the nine Walmart column
names themselves are classified as the Walmart schema; and when no
required subset is contained in the normalized headers the import run
returns the database exactly as given, before reading any row, with no
writes and no error-log entries. -/
theorem format_detection_first_match_and_reject :
    (∀ headers : List String, detect_csv_format headers = detect_first_match headers)
    ∧ detect_csv_format walmart_required_headers = some .walmart
    ∧ (∀ (db : DB) (headers : List String) (rows : List WRow) (dr : Bool),
        detect_csv_format headers = none →
        sellthrough_import db headers rows dr = .rejected db) := by
  refine ⟨?_, by decide, ?_⟩
  · intro headers
    unfold detect_csv_format detect_first_match format_registry
    dsimp only
    simp only [List.find?]
    cases walmart_required_headers.all (fun h => (normalize_headers headers).contains h) <;>
      cases target_required_headers.all (fun h => (normalize_headers headers).contains h) <;>
        cases cvs_required_headers.all (fun h => (normalize_headers headers).contains h) <;>
          cases kehe_required_headers.all (fun h => (normalize_headers headers).contains h) <;>
            rfl
  · intro db headers rows dr h
    unfold sellthrough_import
    rw [h]

/-- Witness for claim C7: a single unknown header is not any known format,
and the run on it is rejected with the database untouched. -/
theorem format_detection_first_match_and_reject_witness :
    detect_csv_format [("foo")] = none
    ∧ sellthrough_import wmDB [("foo")] [wrowGood] false = .rejected wmDB := by
  exact ⟨by decide,
    format_detection_first_match_and_reject.2.2 wmDB [("foo")] [wrowGood] false (by decide)⟩

/-- Claim C8: for every year and week number, parse_yyyyww_to_monday
returns m + 7*(week-1) where m is a Monday, namely the Monday of the week
containing January 4 of that year (m lies at most six days before
January 4); and the concrete codes 202401 and 202405 map to 2024-01-01
and 2024-01-29 respectively. -/
theorem yyyyww_iso_week1_monday :
    (∀ (year : Nat) (week : Int), ∃ m : Int,
        parse_yyyyww_to_monday year week = m + 7 * (week - 1)
        ∧ pyWeekday m = 0
        ∧ m ≤ daysFromCivil year 1 4
        ∧ daysFromCivil year 1 4 < m + 7)
    ∧ parse_yyyyww_str ("202401") = some (daysFromCivil 2024 1 1)
    ∧ parse_yyyyww_str ("202405") = some (daysFromCivil 2024 1 29) := by
  refine ⟨?_, by decide, by decide⟩
  intro year week
  refine ⟨daysFromCivil year 1 4 - pyWeekday (daysFromCivil year 1 4) % 7,
    rfl, ?_, ?_, ?_⟩
  · unfold pyWeekday
    omega
  · unfold pyWeekday
    omega
  · unfold pyWeekday
    omega

/-- Claim C9: a fact row satisfies exactly one of the two index conditions
(item present or item absent); the linked index keys on
(date, channel, item, customer) and the unlinked index on
(date, channel, raw channel code, customer); a linked and an unlinked row
are always jointly admissible under both indexes, so unlinked facts never
collide with linked ones; and the two indexes both hold on the facts
table produced by the two-run import scenario that leaves one linked and
one unlinked row. -/
theorem sellthrough_partial_unique_rules :
    (∀ f : SellthroughData,
        ¬(uq_sellthrough_with_item.cond f = true
            ∧ uq_sellthrough_without_item.cond f = true)
        ∧ (uq_sellthrough_with_item.cond f = true
            ∨ uq_sellthrough_without_item.cond f = true))
    ∧ (∀ f : SellthroughData,
        uq_sellthrough_with_item.key f
          = (f.date, f.channel_id, f.item_id, f.customer_id))
    ∧ (∀ f : SellthroughData,
        uq_sellthrough_without_item.key f
          = (f.date, f.channel_id, f.channel_code, f.customer_id))
    ∧ (∀ f g : SellthroughData,
        uq_sellthrough_with_item.cond f = true →
        uq_sellthrough_without_item.cond g = true →
        pairAdmissible uq_sellthrough_with_item f g
        ∧ pairAdmissible uq_sellthrough_without_item f g
        ∧ pairAdmissible uq_sellthrough_with_item g f
        ∧ pairAdmissible uq_sellthrough_without_item g f)
    ∧ indexHolds uq_sellthrough_with_item (outcomeDb c2run2).facts
    ∧ indexHolds uq_sellthrough_without_item (outcomeDb c2run2).facts := by
  refine ⟨?_, fun f => rfl, fun f => rfl, ?_,
    indexHolds_of_indexHoldsB _ _ (by decide),
    indexHolds_of_indexHoldsB _ _ (by decide)⟩
  · intro f
    cases hi : f.item_id <;>
      simp [uq_sellthrough_with_item, uq_sellthrough_without_item, hi]
  · intro f g hf hg
    have hfS : f.item_id.isSome = true := hf
    have hgN : g.item_id.isNone = true := hg
    have hfN : f.item_id.isNone = false := by
      cases hx : f.item_id <;> simp_all
    have hgS : g.item_id.isSome = false := by
      cases hx : g.item_id <;> simp_all
    exact ⟨pairAdmissible_of_cond_false _ _ _ (Or.inr hgS),
           pairAdmissible_of_cond_false _ _ _ (Or.inl hfN),
           pairAdmissible_of_cond_false _ _ _ (Or.inl hgS),
           pairAdmissible_of_cond_false _ _ _ (Or.inr hfN)⟩

/-- Witness for claim C9: a concrete linked fact row and its unlinked
twin are jointly admissible under both partial indexes. -/
theorem sellthrough_partial_unique_rules_witness :
    pairAdmissible uq_sellthrough_with_item factLinkedEx factUnlinkedEx
    ∧ pairAdmissible uq_sellthrough_without_item factLinkedEx factUnlinkedEx := by
  have h := sellthrough_partial_unique_rules.2.2.2.1 factLinkedEx factUnlinkedEx rfl rfl
  exact ⟨h.1, h.2.1⟩

theorem process_walmart_row_counts (row : WRow) (row_num : Nat) (st : SessState)
    (res : Results) (dr : Bool) :
    (process_walmart_row row row_num st res dr).2.1.processed
        + (process_walmart_row row row_num st res dr).2.1.skipped
      = res.processed + res.skipped + 1
    ∧ (process_walmart_row row row_num st res dr).2.1.processed
        + (res.created + res.updated)
      = res.processed
        + ((process_walmart_row row row_num st res dr).2.1.created
            + (process_walmart_row row row_num st res dr).2.1.updated) := by
  unfold process_walmart_row
  cases h : walmart_try_body row st.current with
  | ok p =>
    rcases p with ⟨db1, oc⟩
    cases oc <;> dsimp only <;> omega
  | error msg =>
    dsimp only
    omega

theorem run_walmart_rows_counts :
    ∀ (rows : List WRow) (row_num : Nat) (st : SessState) (res : Results) (dr : Bool),
    (run_walmart_rows rows row_num st res dr).2.processed
        + (run_walmart_rows rows row_num st res dr).2.skipped
      = res.processed + res.skipped + rows.length
    ∧ (run_walmart_rows rows row_num st res dr).2.processed
        + (res.created + res.updated)
      = res.processed
        + ((run_walmart_rows rows row_num st res dr).2.created
            + (run_walmart_rows rows row_num st res dr).2.updated)
  | [], n, st, res, dr => by simp [run_walmart_rows]
  | r :: rest, n, st, res, dr => by
    have hrow := process_walmart_row_counts r n st res dr
    have hrec := run_walmart_rows_counts rest (n + 1)
      (process_walmart_row r n st res dr).1
      (process_walmart_row r n st res dr).2.1 dr
    rw [run_walmart_rows]
    simp only [List.length_cons]
    omega

/-- Claim C10: whenever the CSV import completes, every data row read has
incremented exactly one of processed or skipped, and every processed row
exactly one of created or updated: the reported summary satisfies
processed + skipped = number of data rows read (all rows, or the first 10
under dry-run) and processed = created + updated. -/
theorem import_summary_count_invariant :
    ∀ (db : DB) (headers : List String) (rows : List WRow) (dr : Bool)
      (db2 : DB) (res : Results),
      sellthrough_import db headers rows dr = .completed db2 res →
      res.processed + res.skipped = (if dr then rows.take 10 else rows).length
      ∧ res.processed = res.created + res.updated := by
  intro db headers rows dr db2 res h
  unfold sellthrough_import at h
  cases hd : detect_csv_format headers with
  | none =>
    rw [hd] at h
    exact absurd h (by simp)
  | some fmt =>
    cases fmt with
    | walmart =>
      rw [hd] at h
      dsimp only at h
      have hc := run_walmart_rows_counts (if dr then rows.take 10 else rows) 2
        ⟨db, db⟩ Results.init dr
      have hi : Results.init.processed = 0 ∧ Results.init.skipped = 0
          ∧ Results.init.created = 0 ∧ Results.init.updated = 0 := ⟨rfl, rfl, rfl, rfl⟩
      cases dr with
      | true =>
        simp only [if_pos] at h hc ⊢
        injection h with h1 h2
        rw [← h2]
        omega
      | false =>
        simp only [if_neg, Bool.false_eq_true, not_false_eq_true] at h hc ⊢
        injection h with h1 h2
        rw [← h2]
        omega
    | target =>
      rw [hd] at h
      exact absurd h (by simp)
    | cvs =>
      rw [hd] at h
      exact absurd h (by simp)
    | kehe =>
      rw [hd] at h
      exact absurd h (by simp)

/-- Witness for claim C10: the two-row run (one valid row, one invalid
date) reports processed 1, skipped 1, created 1, updated 0, matching the
two invariants on two data rows read. -/
theorem import_summary_count_invariant_witness :
    c10res.processed + c10res.skipped
        = (if false then [wrowGood, wrowBadDate].take 10
           else [wrowGood, wrowBadDate]).length
    ∧ c10res.processed = c10res.created + c10res.updated := by
  exact import_summary_count_invariant wmDB walmart_required_headers
    [wrowGood, wrowBadDate] false (outcomeDb c1run) c10res (by decide)
